import Mathlib

/-!
# EMS: order lifecycle, role-scoped order visibility and route guard

A shallow embedding of the parts of the EMS client that decide what an identity
may see and do:

* `src/pages/OrderHistory.jsx`  (`fetchData`)
* `src/pages/Checkout.jsx`      (`validateForm`, `handleSubmit`)
* `src/App.jsx`                 (`ProtectedRoute`, `AppRoutes`)
* `src/components/Layout.jsx`   (`getNavigationItems`)
* `src/contexts/AuthContext.jsx` (`getSession`, `onAuthStateChange`, `signUp`, `logout`)
* `src/pages/Cart.jsx`          (`handleQuantityChange`)
* `src/pages/ProductCatalog.jsx` (`handleAddToCart`)
* `src/components/EventForm.jsx` (`handleSubmit`)

Conventions of the embedding.

* Row ids (users, events, orders, order lines) are opaque keys, modelled as `Nat`.
* Prices, quantities and totals are JavaScript numbers in the source; they are
  modelled as `Int`, which agrees with the source on integral amounts.
* `created_at` is a timestamp; it is modelled by the number `new Date(created_at)`
  converts it to (milliseconds since the epoch).
* The data store is external to the client.  It is modelled as three tables together
  with the meaning of the queries the client sends; whether a given request fails is
  an input (`Faults`).  An `await`ed request is one step of a sequential program.
* The store client is configured (`supabase` is not `null`), and an insert into `orders`
  gets an id that no stored order has.
* `handleSubmit` is given twice: run to its end (`handleSubmit`), and cut at each `await`
  (`handleSubmitStart`, `handleSubmitResume`); `handleSubmit_eq_settle` relates the two.
* A submit of the checkout form reaches `handleSubmit` only through the page: the form
  must be rendered and its submit button enabled (`submitEvent`), and the page shown is
  the one of the current state.
* The cart store (`contexts/CartContext`) is not among the sources; its operations are
  modelled from the specification and are marked as such.
-/

namespace EMS

/-! ## Data model -/

/-- The `appUser` object built in `AuthContext.jsx`. -/
structure Identity where
  id : Nat
  email : String
  role : String
  name : String
deriving DecidableEq, Repr

/-- The billing-contact form of `Checkout.jsx` (the `formData` state). -/
structure FormData where
  name : String
  email : String
  phone : String
  address : String
  city : String
  state : String
  pincode : String
deriving DecidableEq, Repr

/-- A row of the `events` table (the columns the order logic reads). -/
structure EventRow where
  id : Nat
  vendor_id : Nat
  name : String
deriving DecidableEq, Repr

/-- A row of the `orders` table. -/
structure OrderRow where
  id : Nat
  user_id : Nat
  status : String
  total_price : Int
  customer_details : FormData
  created_at : Int
deriving DecidableEq, Repr

/-- A row of the `order_items` table. -/
structure OrderItemRow where
  id : Nat
  order_id : Nat
  event_id : Nat
  quantity : Int
  price : Int
deriving DecidableEq, Repr

/-- The embedded resource `events(name, vendor_id)` of a selected order line. -/
structure EventRef where
  name : String
  vendor_id : Nat
deriving DecidableEq, Repr

/-- An order line as returned by `select('*, order_items(*, events(name, vendor_id))')`. -/
structure OrderItem where
  id : Nat
  order_id : Nat
  event_id : Nat
  quantity : Int
  price : Int
  events : Option EventRef
deriving DecidableEq, Repr

/-- An order as returned by `select('*, order_items(*, events(name, vendor_id))')`. -/
structure Order where
  id : Nat
  user_id : Nat
  status : String
  total_price : Int
  customer_details : FormData
  created_at : Int
  order_items : List OrderItem
deriving DecidableEq, Repr

/-- The three tables of the external store that the order logic touches. -/
structure Store where
  events : List EventRow
  orders : List OrderRow
  order_items : List OrderItemRow
deriving DecidableEq, Repr

/-- Which requests to the store fail, and with which error message.  Select faults are
per table; the vendor path and the user/admin path both read `orders`. -/
structure Faults where
  eventsSelect : Option String
  orderItemsSelect : Option String
  ordersSelect : Option String
  ordersInsert : Option String
  orderItemsInsert : Option String
  ordersDelete : Option String
deriving DecidableEq, Repr

/-- No request fails. -/
def Faults.none : Faults :=
  { eventsSelect := Option.none, orderItemsSelect := Option.none, ordersSelect := Option.none,
    ordersInsert := Option.none, orderItemsInsert := Option.none, ordersDelete := Option.none }

/-! ## Meaning of the read queries -/

/-- The columns of a selected order line that are stored in `order_items`. -/
def OrderItem.toRow (l : OrderItem) : OrderItemRow :=
  { id := l.id, order_id := l.order_id, event_id := l.event_id,
    quantity := l.quantity, price := l.price }

/-- The embedded `events(name, vendor_id)` of a line: the event its `event_id` refers to. -/
def embedEvent (db : Store) (event_id : Nat) : Option EventRef :=
  (db.events.find? (fun e => e.id = event_id)).map
    (fun e => { name := e.name, vendor_id := e.vendor_id })

/-- A stored line with its embedded event. -/
def joinItem (db : Store) (r : OrderItemRow) : OrderItem :=
  { id := r.id, order_id := r.order_id, event_id := r.event_id,
    quantity := r.quantity, price := r.price, events := embedEvent db r.event_id }

/-- The embedded `order_items(...)` of an order: the stored lines whose `order_id` is the
order's id. -/
def embedItems (db : Store) (order_id : Nat) : List OrderItem :=
  (db.order_items.filter (fun r => r.order_id = order_id)).map (joinItem db)

/-- A stored order with its embedded lines. -/
def joinOrder (db : Store) (o : OrderRow) : Order :=
  { id := o.id, user_id := o.user_id, status := o.status, total_price := o.total_price,
    customer_details := o.customer_details, created_at := o.created_at,
    order_items := embedItems db o.id }

/-- The query `from('events').select('id').eq('vendor_id', uid)`; the result is already
mapped to the ids (`vendorEvents.map(e => e.id)`). -/
def selectEventIds (db : Store) (f : Faults) (uid : Nat) : Except String (List Nat) :=
  match f.eventsSelect with
  | some err => Except.error err
  | Option.none => Except.ok ((db.events.filter (fun e => e.vendor_id = uid)).map (fun e => e.id))

/-- The query `from('order_items').select('order_id').in('event_id', eventIds)`; the
result is already mapped to the order ids (`orderItems.map(item => item.order_id)`). -/
def selectOrderIds (db : Store) (f : Faults) (eventIds : List Nat) : Except String (List Nat) :=
  match f.orderItemsSelect with
  | some err => Except.error err
  | Option.none =>
    Except.ok ((db.order_items.filter (fun r => eventIds.contains r.event_id)).map
      (fun r => r.order_id))

/-- The query `from('orders').select('*, order_items(*, events(name, vendor_id))')`
followed by `.in('id', orderIds)`. -/
def selectOrdersIn (db : Store) (f : Faults) (orderIds : List Nat) : Except String (List Order) :=
  match f.ordersSelect with
  | some err => Except.error err
  | Option.none =>
    Except.ok ((db.orders.filter (fun o => orderIds.contains o.id)).map (joinOrder db))

/-- The query `from('orders').select('*, order_items(*, events(name, vendor_id))')`,
with `.eq('user_id', uid)` when `buyer = some uid`. -/
def selectOrders (db : Store) (f : Faults) (buyer : Option Nat) : Except String (List Order) :=
  match f.ordersSelect with
  | some err => Except.error err
  | Option.none =>
    match buyer with
    | some uid => Except.ok ((db.orders.filter (fun o => o.user_id = uid)).map (joinOrder db))
    | Option.none => Except.ok (db.orders.map (joinOrder db))

/-! ## `OrderHistory.jsx` -/

/-- The expression `[...new Set(xs)]`: the distinct values in order of first occurrence. -/
def uniqueValues (xs : List Nat) : List Nat :=
  xs.foldl (fun acc x => if acc.contains x then acc else acc ++ [x]) []

/-- The body of `ordersData.map(order => ...)`: keep the lines whose `event_id` is one of
the vendor's event ids and recompute the total over them. -/
def vendorView (eventIds : List Nat) (order : Order) : Order :=
  let vendorItems := order.order_items.filter (fun item => eventIds.contains item.event_id)
  let vendorTotal := vendorItems.foldl (fun sum item => sum + item.price * item.quantity) 0
  { order with order_items := vendorItems, total_price := vendorTotal }

/-- The call `sort((a, b) => new Date(b.created_at) - new Date(a.created_at))`: a stable
sort that puts `a` before `b` when `a` is more recent. -/
def sortNewestFirst (orders : List Order) : List Order :=
  orders.insertionSort (fun a b => b.created_at ≤ a.created_at)

/-- The part of `fetchData` that computes the pair `(finalOrders, fetchError)`. -/
def loadOrders (user : Identity) (db : Store) (f : Faults) : List Order × Option String :=
  if user.role = "vendor" then
    match selectEventIds db f user.id with
    | Except.error eventsError => ([], some eventsError)
    | Except.ok eventIds =>
      if eventIds.length > 0 then
        match selectOrderIds db f eventIds with
        | Except.error itemsError => ([], some itemsError)
        | Except.ok itemOrderIds =>
          let orderIds := uniqueValues itemOrderIds
          if orderIds.length > 0 then
            match selectOrdersIn db f orderIds with
            | Except.error ordersError => ([], some ordersError)
            | Except.ok ordersData => (ordersData.map (vendorView eventIds), Option.none)
          else ([], Option.none)
      else ([], Option.none)
  else
    match selectOrders db f (if user.role = "user" then some user.id else Option.none) with
    | Except.error error => ([], some error)
    | Except.ok data => (data, Option.none)

/-- The state of the `OrderHistory` component that `fetchData` writes, and the console. -/
structure HistoryState where
  orders : List Order
  loading : Bool
  console : List String
deriving DecidableEq, Repr

/-- The callback `fetchData` of `OrderHistory`, for the identity `user` and the status
tab `filter`. -/
def fetchData (user : Option Identity) (filter : String) (db : Store) (f : Faults)
    (st : HistoryState) : HistoryState :=
  match user with
  | Option.none => st
  | some user =>
    match loadOrders user db f with
    | (_, some fetchError) =>
      { orders := [], loading := false,
        console := st.console ++ ["Error fetching orders: " ++ fetchError] }
    | (finalOrders, Option.none) =>
      let filteredOrders :=
        if filter ≠ "all" then finalOrders.filter (fun order => order.status = filter)
        else finalOrders
      { orders := sortNewestFirst filteredOrders, loading := false, console := st.console }

/-! ## `Checkout.jsx` -/

/-- A line of the cart (`cartItems`): the catalog record plus a quantity. -/
structure CartItem where
  id : Nat
  name : String
  price : Int
  quantity : Int
deriving DecidableEq, Repr

/-- Modelled from the spec: `getCartTotal` of `contexts/CartContext`, which is not among
the sources.  The spec gives `total()` as the sum of `unitPriceSnapshot × quantity` over
all lines. -/
def getCartTotal (cartItems : List CartItem) : Int :=
  (cartItems.map (fun item => item.price * item.quantity)).sum

/-- Modelled from the spec: `clearCart` of `contexts/CartContext`, which is not among the
sources.  The spec gives `clear()` as emptying the cart. -/
def clearCart (_cartItems : List CartItem) : List CartItem := []

/-- The characters `String.prototype.trim` strips: WhiteSpace and LineTerminator. -/
def isJsWhitespace (c : Char) : Bool :=
  let n := c.toNat
  n = 0x09 || n = 0x0A || n = 0x0B || n = 0x0C || n = 0x0D || n = 0x20 || n = 0xA0 ||
  n = 0x1680 || (0x2000 ≤ n && n ≤ 0x200A) || n = 0x2028 || n = 0x2029 || n = 0x202F ||
  n = 0x205F || n = 0x3000 || n = 0xFEFF

/-- The method `trim()`, on the characters of a string. -/
def jsTrim (cs : List Char) : List Char :=
  ((cs.dropWhile isJsWhitespace).reverse.dropWhile isJsWhitespace).reverse

/-- The test `!value.trim()`: the trimmed string is empty. -/
def blankAfterTrim (value : String) : Bool :=
  (jsTrim value.toList).isEmpty

/-- The class `\d` (no unicode flag): an ASCII digit. -/
def isAsciiDigit (c : Char) : Bool :=
  48 ≤ c.toNat && c.toNat ≤ 57

/-- The test `/^[6-9]\d{9}$/.test(value)`. -/
def phonePattern (value : String) : Bool :=
  match value.toList with
  | [] => false
  | c :: rest => (54 ≤ c.toNat && c.toNat ≤ 57) && rest.length = 9 && rest.all isAsciiDigit

/-- The test `/^\d{6}$/.test(value)`. -/
def pincodePattern (value : String) : Bool :=
  value.toList.length = 6 && value.toList.all isAsciiDigit

/-- The array `requiredFields` of `validateForm`. -/
def requiredFields : List String :=
  ["name", "email", "phone", "address", "city", "state", "pincode"]

/-- The lookup `formData[field]` for the fields of the form. -/
def FormData.get (formData : FormData) (field : String) : String :=
  if field = "name" then formData.name
  else if field = "email" then formData.email
  else if field = "phone" then formData.phone
  else if field = "address" then formData.address
  else if field = "city" then formData.city
  else if field = "state" then formData.state
  else if field = "pincode" then formData.pincode
  else ""

/-- The assignment `newErrors[field] = message` on an object kept as a list of
key/value pairs: an existing key keeps its place and gets the new value. -/
def setError (errs : List (String × String)) (field message : String) : List (String × String) :=
  if errs.any (fun kv => kv.1 = field) then
    errs.map (fun kv => if kv.1 = field then (field, message) else kv)
  else errs ++ [(field, message)]

/-- The function `validateForm`: the value it returns and the `errors` it sets. -/
def validateForm (formData : FormData) : Bool × List (String × String) :=
  let e1 := requiredFields.foldl
    (fun newErrors field =>
      if blankAfterTrim (formData.get field) then setError newErrors field "This field is required"
      else newErrors) []
  let e2 :=
    if formData.phone ≠ "" ∧ ¬ phonePattern formData.phone = true then
      setError e1 "phone" "Invalid 10-digit phone number"
    else e1
  let e3 :=
    if formData.pincode ≠ "" ∧ ¬ pincodePattern formData.pincode = true then
      setError e2 "pincode" "Invalid 6-digit pincode"
    else e2
  (e3.length = 0, e3)

/-- The object passed to `from('orders').insert(...)`. -/
structure OrderInsert where
  user_id : Nat
  total_price : Int
  status : String
  customer_details : FormData
deriving DecidableEq, Repr

/-- One element of the array passed to `from('order_items').insert(...)`. -/
structure OrderItemInsert where
  order_id : Nat
  event_id : Nat
  quantity : Int
  price : Int
deriving DecidableEq, Repr

/-- A write request sent to the store by `handleSubmit`. -/
inductive StoreOp where
  | insertOrder (row : OrderInsert)
  | insertOrderItems (rows : List OrderItemInsert)
  | deleteOrder (id : Nat)
deriving DecidableEq, Repr

/-- An id that none of the given rows uses (the store assigns ids on insert). -/
def freshId (ids : List Nat) : Nat :=
  ids.foldl max 0 + 1

/-- The request `from('orders').insert(row).select().single()`: on success the store
holds a new row, with an id and a creation time assigned by the store, and returns it. -/
def insertOrder (db : Store) (f : Faults) (now : Int) (row : OrderInsert) :
    Except String OrderRow × Store :=
  match f.ordersInsert with
  | some err => (Except.error err, db)
  | Option.none =>
    let created : OrderRow :=
      { id := freshId (db.orders.map (fun o => o.id)), user_id := row.user_id,
        status := row.status, total_price := row.total_price,
        customer_details := row.customer_details, created_at := now }
    (Except.ok created, { db with orders := db.orders ++ [created] })

/-- The request `from('order_items').insert(rows)`: one statement, so on failure no row
is stored. -/
def insertOrderItems (db : Store) (f : Faults) (rows : List OrderItemInsert) :
    Option String × Store :=
  match f.orderItemsInsert with
  | some err => (some err, db)
  | Option.none =>
    let base := freshId (db.order_items.map (fun r => r.id))
    let created : List OrderItemRow :=
      (rows.enumFrom base).map (fun ir =>
        { id := ir.1, order_id := ir.2.order_id, event_id := ir.2.event_id,
          quantity := ir.2.quantity, price := ir.2.price })
    (Option.none, { db with order_items := db.order_items ++ created })

/-- The request `from('orders').delete().eq('id', id)`. -/
def deleteOrder (db : Store) (f : Faults) (id : Nat) : Option String × Store :=
  match f.ordersDelete with
  | some err => (some err, db)
  | Option.none => (Option.none, { db with orders := db.orders.filter (fun o => o.id ≠ id) })

/-- The call `navigate('/orders', { state: { orderPlaced: true, orderId } })`. -/
structure Navigation where
  path : String
  orderPlaced : Bool
  orderId : Nat
deriving DecidableEq, Repr

/-- Everything `handleSubmit` reads or writes: the component state, the cart, the
messages shown with `alert`, the navigation, the store and the requests sent to it
(oldest first).  Two observers are kept with it: `cartClears` counts the calls of
`clearCart`, and `console` holds what is written with `console.error`, `console.warn` or
`console.log`. -/
structure CheckoutState where
  formData : FormData
  errors : List (String × String)
  processing : Bool
  cartItems : List CartItem
  alerts : List String
  navigation : Option Navigation
  db : Store
  requests : List StoreOp
  cartClears : Nat
  console : List String
deriving DecidableEq, Repr

/-- The handler `handleSubmit` of `Checkout`, run to completion for the buyer `user`. -/
def handleSubmit (user : Identity) (f : Faults) (now : Int) (s : CheckoutState) :
    CheckoutState :=
  let v := validateForm s.formData
  if v.1 = false then { s with errors := v.2 }
  else
    let total := getCartTotal s.cartItems
    -- 1. Create the order
    let row : OrderInsert :=
      { user_id := user.id, total_price := total, status := "confirmed",
        customer_details := s.formData }
    match insertOrder s.db f now row with
    | (Except.error orderError, db1) =>
      { s with errors := v.2, processing := false, db := db1,
               requests := s.requests ++ [StoreOp.insertOrder row],
               alerts := s.alerts ++ ["Error creating order: " ++ orderError] }
    | (Except.ok orderData, db1) =>
      -- 2. Create the order items
      let orderItems : List OrderItemInsert :=
        s.cartItems.map (fun item =>
          { order_id := orderData.id, event_id := item.id,
            quantity := item.quantity, price := item.price })
      match insertOrderItems db1 f orderItems with
      | (some itemsError, db2) =>
        { s with errors := v.2, processing := false,
                 db := (deleteOrder db2 f orderData.id).2,
                 requests := s.requests ++ [StoreOp.insertOrder row,
                   StoreOp.insertOrderItems orderItems, StoreOp.deleteOrder orderData.id],
                 alerts := s.alerts ++ ["Error saving order items: " ++ itemsError] }
      | (Option.none, db2) =>
        -- 3. Success
        { s with errors := v.2, processing := false, db := db2,
                 cartItems := clearCart s.cartItems,
                 cartClears := s.cartClears + 1,
                 requests := s.requests ++ [StoreOp.insertOrder row,
                   StoreOp.insertOrderItems orderItems],
                 navigation := some { path := "/orders", orderPlaced := true,
                                      orderId := orderData.id } }

/-- The points at which `handleSubmit` is suspended, one for each `await`, with the
local variables that are live there. -/
inductive Suspended where
  | orderInsert (row : OrderInsert)
  | itemsInsert (orderData : OrderRow) (orderItems : List OrderItemInsert)
  | orderDelete (orderData : OrderRow)
deriving DecidableEq, Repr

/-- The synchronous part of `handleSubmit`, from the submit event to the first `await`:
validation, `setProcessing(true)` and the order insert that is sent. -/
def handleSubmitStart (user : Identity) (s : CheckoutState) :
    CheckoutState × Option Suspended :=
  let v := validateForm s.formData
  if v.1 = false then ({ s with errors := v.2 }, Option.none)
  else
    let total := getCartTotal s.cartItems
    let row : OrderInsert :=
      { user_id := user.id, total_price := total, status := "confirmed",
        customer_details := s.formData }
    ({ s with errors := v.2, processing := true,
              requests := s.requests ++ [StoreOp.insertOrder row] },
     some (Suspended.orderInsert row))

/-- The part of `handleSubmit` that runs when the store answers the pending request, up
to the next `await` or to the end. -/
def handleSubmitResume (f : Faults) (now : Int) (s : CheckoutState) :
    Suspended → CheckoutState × Option Suspended
  | Suspended.orderInsert row =>
    match insertOrder s.db f now row with
    | (Except.error orderError, db1) =>
      ({ s with processing := false, db := db1,
                alerts := s.alerts ++ ["Error creating order: " ++ orderError] }, Option.none)
    | (Except.ok orderData, db1) =>
      let orderItems : List OrderItemInsert :=
        s.cartItems.map (fun item =>
          { order_id := orderData.id, event_id := item.id,
            quantity := item.quantity, price := item.price })
      ({ s with db := db1, requests := s.requests ++ [StoreOp.insertOrderItems orderItems] },
       some (Suspended.itemsInsert orderData orderItems))
  | Suspended.itemsInsert orderData orderItems =>
    match insertOrderItems s.db f orderItems with
    | (some itemsError, db2) =>
      ({ s with db := db2, alerts := s.alerts ++ ["Error saving order items: " ++ itemsError],
                requests := s.requests ++ [StoreOp.deleteOrder orderData.id] },
       some (Suspended.orderDelete orderData))
    | (Option.none, db2) =>
      ({ s with processing := false, db := db2, cartItems := clearCart s.cartItems,
                cartClears := s.cartClears + 1,
                navigation := some { path := "/orders", orderPlaced := true,
                                     orderId := orderData.id } }, Option.none)
  | Suspended.orderDelete orderData =>
    ({ s with processing := false, db := (deleteOrder s.db f orderData.id).2 }, Option.none)

/-- Resume a suspended `handleSubmit` until it ends, at most `n` times. -/
def handleSubmitSettle (f : Faults) (now : Int) :
    Nat → CheckoutState × Option Suspended → CheckoutState
  | _, (s, Option.none) => s
  | 0, (s, some _) => s
  | n + 1, (s, some p) => handleSubmitSettle f now n (handleSubmitResume f now s p)

/-- What `Checkout` renders: the notice `No items to checkout.`, or the form with its
submit button (`disabled={processing}`, labelled `Processing...` or `Place Order`). -/
inductive CheckoutView where
  | noItems
  | form (submitDisabled : Bool) (submitLabel : String)
deriving DecidableEq, Repr

/-- The value the component `Checkout` returns for its current state. -/
def Checkout (s : CheckoutState) : CheckoutView :=
  if s.cartItems.length = 0 then CheckoutView.noItems
  else CheckoutView.form s.processing (if s.processing then "Processing..." else "Place Order")

/-- A submit of the checkout form as the page allows it: `handleSubmit` is the `onSubmit`
handler of the form, so it starts only when the form is rendered and its submit button is
not disabled; otherwise nothing happens. -/
def submitEvent (user : Identity) (s : CheckoutState) : CheckoutState × Option Suspended :=
  match Checkout s with
  | CheckoutView.noItems => (s, Option.none)
  | CheckoutView.form submitDisabled _ =>
    if submitDisabled then (s, Option.none) else handleSubmitStart user s

/-- The checkout operation run to its end: a submit of the form and the answers of the
store. -/
def checkoutOperation (user : Identity) (f : Faults) (now : Int) (s : CheckoutState) : CheckoutState :=
  handleSubmitSettle f now 3 (submitEvent user s)

/-! ## `App.jsx` -/

/-- The value of `useAuth()` that `ProtectedRoute` reads. -/
structure AuthState where
  user : Option Identity
  loading : Bool
deriving DecidableEq, Repr

/-- What `ProtectedRoute` returns: the spinner, a `Navigate` element, or its children. -/
inductive Rendered where
  | spinner
  | navigate (dest : String) (replace : Bool)
  | children
deriving DecidableEq, Repr

/-- The component `ProtectedRoute`; `allowedRoles = none` is the prop left out. -/
def ProtectedRoute (auth : AuthState) (allowedRoles : Option (List String)) : Rendered :=
  if auth.loading then Rendered.spinner
  else
    match auth.user with
    | Option.none => Rendered.navigate "/login" true
    | some user =>
      match allowedRoles with
      | some roles =>
        if ¬ roles.contains user.role then Rendered.navigate "/unauthorized" true
        else Rendered.children
      | Option.none => Rendered.children

/-- A route of `AppRoutes`: what its `element` is. -/
inductive RouteElement where
  | loginOrDashboard
  | signupOrDashboard
  | guarded (allowedRoles : List String) (page : String)
  | unauthorizedNotice
  | toLogin
deriving DecidableEq, Repr

/-- The `<Route>` entries of `AppRoutes`, in the order they are written. -/
def AppRoutes : List (String × RouteElement) :=
  [("/login", RouteElement.loginOrDashboard),
   ("/signup", RouteElement.signupOrDashboard),
   ("/admin", RouteElement.guarded ["admin"] "AdminDashboard"),
   ("/vendor", RouteElement.guarded ["vendor"] "VendorDashboard"),
   ("/user", RouteElement.guarded ["user"] "UserDashboard"),
   ("/products", RouteElement.guarded ["user", "vendor"] "ProductCatalog"),
   ("/cart", RouteElement.guarded ["user"] "Cart"),
   ("/checkout", RouteElement.guarded ["user"] "Checkout"),
   ("/orders", RouteElement.guarded ["user", "vendor", "admin"] "OrderHistory"),
   ("/membership", RouteElement.guarded ["user", "admin"] "MembershipManagement"),
   ("/unauthorized", RouteElement.unauthorizedNotice),
   ("/", RouteElement.toLogin)]

/-- The route of `AppRoutes` declared for a path, if there is one. -/
def routeFor (path : String) : Option RouteElement :=
  (AppRoutes.find? (fun r => r.1 = path)).map (fun r => r.2)

/-- What following a path renders for a route guarded by `ProtectedRoute`; `none` when
the path has no route, or a route that is not guarded. -/
def followGuarded (auth : AuthState) (path : String) : Option Rendered :=
  match routeFor path with
  | some (RouteElement.guarded allowedRoles _) => some (ProtectedRoute auth (some allowedRoles))
  | _ => Option.none

/-- The redirect `<Navigate to={"/" + user.role} />` of `/login` and `/signup` for a
logged-in identity. -/
def dashboardPath (user : Identity) : String :=
  "/" ++ user.role

/-! ## `Layout.jsx` -/

/-- An entry of the navigation bar (the icon is left out). -/
structure NavItem where
  path : String
  label : String
deriving DecidableEq, Repr

/-- The function `getNavigationItems` of `Layout`. -/
def getNavigationItems (user : Identity) : List NavItem :=
  let baseItems : List NavItem := [{ path := "/" ++ user.role, label := "Dashboard" }]
  if user.role = "admin" then
    baseItems ++ [{ path := "/orders", label := "Orders" },
                  { path := "/membership", label := "Memberships" },
                  { path := "/reports", label := "Reports" },
                  { path := "/maintenance", label := "Maintenance" }]
  else if user.role = "vendor" then
    baseItems ++ [{ path := "/products", label := "Products" },
                  { path := "/orders", label := "Orders" }]
  else if user.role = "user" then
    baseItems ++ [{ path := "/products", label := "Events" },
                  { path := "/orders", label := "My Orders" },
                  { path := "/membership", label := "Membership" }]
  else baseItems

/-! ## `AuthContext.jsx` -/

/-- The `user_metadata` of an account: the fields the client reads, each possibly
missing. -/
structure UserMetadata where
  role : Option String
  name : Option String
deriving DecidableEq, Repr

/-- The `user` of a session of the auth collaborator. -/
structure SessionUser where
  id : Nat
  email : String
  user_metadata : Option UserMetadata
deriving DecidableEq, Repr

/-- A session of the auth collaborator. -/
structure Session where
  user : Option SessionUser
deriving DecidableEq, Repr

/-- The expression `value || fallback` for a string that may be missing: a missing and an
empty string are falsy. -/
def orElse (value : Option String) (fallback : String) : String :=
  match value with
  | some v => if v = "" then fallback else v
  | Option.none => fallback

/-- The `appUser` object built in `getSession` (lines 25-30). -/
def appUserOfGetSession (u : SessionUser) : Identity :=
  { id := u.id, email := u.email,
    role := orElse (u.user_metadata.bind (fun m => m.role)) "user",
    name := orElse (u.user_metadata.bind (fun m => m.name)) u.email }

/-- The `appUser` object built in the `onAuthStateChange` callback (lines 39-44). -/
def appUserOfAuthChange (u : SessionUser) : Identity :=
  { id := u.id, email := u.email,
    role := orElse (u.user_metadata.bind (fun m => m.role)) "user",
    name := orElse (u.user_metadata.bind (fun m => m.name)) u.email }

/-- The function `getSession` of the effect: the session found on load sets the user
when it has one, and loading ends. -/
def getSession (session : Option Session) (st : AuthState) : AuthState :=
  match session.bind (fun x => x.user) with
  | some u => { user := some (appUserOfGetSession u), loading := false }
  | Option.none => { st with loading := false }

/-- The callback given to `onAuthStateChange`: the user becomes the identity of the
session, or `null`. -/
def onAuthStateChange (session : Option Session) (st : AuthState) : AuthState :=
  match session.bind (fun x => x.user) with
  | some u => { st with user := some (appUserOfAuthChange u) }
  | Option.none => { st with user := Option.none }

/-- The argument of `supabase.auth.signUp`. -/
structure SignUpRequest where
  email : String
  password : String
  dataName : String
  dataRole : String
deriving DecidableEq, Repr

/-- The request that `signUp(name, email, password, role)` sends (lines 75-84). -/
def signUpRequest (name email password role : String) : SignUpRequest :=
  { email := email, password := password, dataName := name, dataRole := role }

/-- What the auth collaborator does with `signOut()`: the error it returns, if any, and
the session it reports to the `onAuthStateChange` subscription, if it reports one. -/
structure SignOutOutcome where
  error : Option String
  notifies : Option (Option Session)
deriving DecidableEq, Repr

/-- The function `logout`, with the console; `configured` is `supabase` not being
`null`. -/
def logout (configured : Bool) (outcome : SignOutOutcome) (st : AuthState)
    (console : List String) : AuthState × List String :=
  if ¬ configured then ({ st with user := Option.none }, console)
  else
    let st1 :=
      match outcome.notifies with
      | some session => onAuthStateChange session st
      | Option.none => st
    match outcome.error with
    | some error => (st1, console ++ ["Error logging out: " ++ error])
    | Option.none => (st1, console)

/-! ## `Cart.jsx`, `ProductCatalog.jsx` and the cart store -/

/-- A catalog record as the cart receives it. -/
structure CatalogEvent where
  id : Nat
  name : String
  price : Int
deriving DecidableEq, Repr

/-- Modelled from the spec: `addToCart` of `contexts/CartContext`, which is not among the
sources.  The spec gives `add(item, quantity=1)`: it merges into the existing line by
summing quantity if the item id is already present, else inserts a new line. -/
def addToCart (cartItems : List CartItem) (event : CatalogEvent) (quantity : Int) :
    List CartItem :=
  if cartItems.any (fun line => line.id = event.id) then
    cartItems.map (fun line =>
      if line.id = event.id then { line with quantity := line.quantity + quantity } else line)
  else
    cartItems ++ [{ id := event.id, name := event.name, price := event.price,
                    quantity := quantity }]

/-- Modelled from the spec: `updateQuantity` of `contexts/CartContext`, which is not
among the sources.  The spec gives `setQuantity(itemId, n)`: a no-op if `n < 1`, else the
line of that item gets the quantity `n`. -/
def updateQuantity (cartItems : List CartItem) (id : Nat) (n : Int) : List CartItem :=
  if n < 1 then cartItems
  else cartItems.map (fun line => if line.id = id then { line with quantity := n } else line)

/-- Modelled from the spec: `removeFromCart` of `contexts/CartContext`, which is not
among the sources.  The spec gives `remove(itemId)`: the line of that item is dropped. -/
def removeFromCart (cartItems : List CartItem) (id : Nat) : List CartItem :=
  cartItems.filter (fun line => line.id ≠ id)

/-- Modelled from the spec: `getCartItemsCount` of `contexts/CartContext`, which is not
among the sources.  The spec gives `count()` as the sum of quantities. -/
def getCartItemsCount (cartItems : List CartItem) : Int :=
  (cartItems.map (fun line => line.quantity)).sum

/-- An operation on the cart store. -/
inductive CartOp where
  | add (event : CatalogEvent) (quantity : Int)
  | setQuantity (id : Nat) (n : Int)
  | remove (id : Nat)
deriving DecidableEq, Repr

/-- The cart after one operation. -/
def applyCartOp (cartItems : List CartItem) : CartOp → List CartItem
  | CartOp.add event quantity => addToCart cartItems event quantity
  | CartOp.setQuantity id n => updateQuantity cartItems id n
  | CartOp.remove id => removeFromCart cartItems id

/-- The cart after a sequence of operations. -/
def runCartOps (ops : List CartOp) (cartItems : List CartItem) : List CartItem :=
  ops.foldl applyCartOp cartItems

/-- The cart of the `Cart` page and the calls of `updateQuantity` made so far. -/
structure CartPage where
  cartItems : List CartItem
  updateQuantityCalls : List (Nat × Int)
deriving DecidableEq, Repr

/-- The function `handleQuantityChange` of `Cart`; `update` is the `updateQuantity` of
the cart context. -/
def handleQuantityChange (update : List CartItem → Nat → Int → List CartItem)
    (id : Nat) (newQuantity : Int) (page : CartPage) : CartPage :=
  if newQuantity < 1 then page
  else
    { cartItems := update page.cartItems id newQuantity,
      updateQuantityCalls := page.updateQuantityCalls ++ [(id, newQuantity)] }

/-- The function `handleAddToCart` of `ProductCatalog`: one call `addToCart(event)`, with
the quantity left to its default 1, and the message shown. -/
def handleAddToCart (event : CatalogEvent) (cartItems : List CartItem) :
    List CartItem × String :=
  (addToCart cartItems event 1, event.name ++ " added to cart!")

/-! ## `EventForm.jsx` -/

/-- The `formData` state of `EventForm`. -/
structure EventFormData where
  name : String
  type : String
  description : String
  price : String
  capacity : String
  date : String
  image_url : String
  location : String
deriving DecidableEq, Repr

/-- The object `eventPayload`: the columns the form writes. -/
structure EventPayload where
  name : String
  type : String
  description : String
  price : Int
  capacity : Int
  date : String
  image_url : String
  location : String
deriving DecidableEq, Repr

/-- A full row of the `events` table. -/
structure EventRecord where
  id : Nat
  vendor_id : Nat
  name : String
  type : String
  description : String
  price : Int
  capacity : Int
  date : String
  image_url : String
  location : String
deriving DecidableEq, Repr

/-- The columns of an event that the order logic reads. -/
def EventRecord.toRow (e : EventRecord) : EventRow :=
  { id := e.id, vendor_id := e.vendor_id, name := e.name }

/-- A write request that `EventForm` sends: `update(payload).eq('id', id)` followed by
`.eq('vendor_id', vendor_id)`, or `insert({ ...payload, vendor_id })`. -/
inductive EventRequest where
  | update (payload : EventPayload) (id : Nat) (vendor_id : Nat)
  | insert (payload : EventPayload) (vendor_id : Nat)
deriving DecidableEq, Repr

/-- The columns of the payload written into a row; `id` and `vendor_id` are not among
them. -/
def EventRecord.withPayload (e : EventRecord) (p : EventPayload) : EventRecord :=
  { e with name := p.name, type := p.type, description := p.description, price := p.price,
           capacity := p.capacity, date := p.date, image_url := p.image_url,
           location := p.location }

/-- The `events` table after a request that succeeded: an update writes the payload into
the rows that pass both filters, an insert adds a row with an id no stored event has. -/
def applyEventRequest (events : List EventRecord) : EventRequest → List EventRecord
  | EventRequest.update payload id vendor_id =>
    events.map (fun e =>
      if e.id = id ∧ e.vendor_id = vendor_id then e.withPayload payload else e)
  | EventRequest.insert payload vendor_id =>
    events ++ [{ id := freshId (events.map (fun e => e.id)), vendor_id := vendor_id,
                 name := payload.name, type := payload.type,
                 description := payload.description, price := payload.price,
                 capacity := payload.capacity, date := payload.date,
                 image_url := payload.image_url, location := payload.location }]

/-- What `EventForm.handleSubmit` reads or writes: the component state, the number of
calls of `onSave`, the `events` table and the requests sent to it. -/
structure EventFormState where
  formData : EventFormData
  loading : Bool
  error : String
  saved : Nat
  events : List EventRecord
  requests : List EventRequest
deriving DecidableEq, Repr

/-- The handler `handleSubmit` of `EventForm`, run to its end for the identity `user`;
`event` is the prop (the event being edited, its id being a key of the table, or none),
`dbError` the error of the response, and `parseFloat`, `parseInt` read the numbers
typed into the form. -/
def EventForm.handleSubmit (parseFloat parseInt : String → Int) (user : Identity)
    (event : Option EventRecord) (dbError : Option String) (s : EventFormState) :
    EventFormState :=
  let eventPayload : EventPayload :=
    { name := s.formData.name, type := s.formData.type,
      description := s.formData.description, price := parseFloat s.formData.price,
      capacity := parseInt s.formData.capacity, date := s.formData.date,
      image_url := s.formData.image_url, location := s.formData.location }
  let request : EventRequest :=
    match event with
    | some e => EventRequest.update eventPayload e.id user.id
    | Option.none => EventRequest.insert eventPayload user.id
  match dbError with
  | some message =>
    { s with loading := false, error := message, requests := s.requests ++ [request] }
  | Option.none =>
    { s with loading := false, error := "", saved := s.saved + 1,
             events := applyEventRequest s.events request,
             requests := s.requests ++ [request] }

/-! ## Notions used to state the properties -/

/-- The ids of the events whose `vendor_id` is `uid`: the vendor's own event-id set. -/
def ownEventIds (db : Store) (uid : Nat) : List Nat :=
  (db.events.filter (fun e => e.vendor_id = uid)).map (fun e => e.id)

/-- The sum of `price × quantity` over a list of selected lines. -/
def linesTotal (lines : List OrderItem) : Int :=
  (lines.map (fun l => l.price * l.quantity)).sum

/-- An order has at least one stored line whose event is one of the vendor's. -/
def touchesVendor (db : Store) (uid : Nat) (r : OrderRow) : Bool :=
  db.order_items.any (fun l => l.order_id = r.id && (ownEventIds db uid).contains l.event_id)

/-- The sum of `price × quantity` over the rows of a batch sent to `order_items`. -/
def batchTotal (rows : List OrderItemInsert) : Int :=
  (rows.map (fun r => r.price * r.quantity)).sum

/-- The sum of `price × quantity` over stored lines. -/
def storedTotal (rows : List OrderItemRow) : Int :=
  (rows.map (fun r => r.price * r.quantity)).sum

/-- The columns of a stored line that the client sent. -/
def OrderItemRow.toInsert (r : OrderItemRow) : OrderItemInsert :=
  { order_id := r.order_id, event_id := r.event_id, quantity := r.quantity, price := r.price }

/-- A value is non-empty after trimming: it has a character that is not whitespace. -/
def nonBlank (value : String) : Prop :=
  ∃ c ∈ value.toList, isJsWhitespace c = false

/-- A 10-digit mobile number: exactly ten digits, the first one in 6..9. -/
def tenDigitMobile (value : String) : Prop :=
  value.toList.length = 10 ∧ (∀ c ∈ value.toList, '0' ≤ c ∧ c ≤ '9') ∧
    ∃ c, value.toList.head? = some c ∧ '6' ≤ c ∧ c ≤ '9'

/-- A 6-digit postal code: exactly six digits. -/
def sixDigitCode (value : String) : Prop :=
  value.toList.length = 6 ∧ ∀ c ∈ value.toList, '0' ≤ c ∧ c ≤ '9'

/-- A field of the form fails validation: it is a required field that is blank, or it is
the phone and not a 10-digit mobile number, or it is the pincode and not a 6-digit code. -/
def fieldFails (formData : FormData) (field : String) : Prop :=
  field ∈ requiredFields ∧
    (¬ nonBlank (formData.get field) ∨
     (field = "phone" ∧ ¬ tenDigitMobile formData.phone) ∨
     (field = "pincode" ∧ ¬ sixDigitCode formData.pincode))

/-- A checkout is in flight in state `s`, suspended at `p`: a submit with a valid form
started `handleSubmit`, and it has not reached one of its ends. -/
inductive InFlight (user : Identity) (f : Faults) (now : Int) :
    CheckoutState → Suspended → Prop where
  | started (s0 s : CheckoutState) (p : Suspended) :
      submitEvent user s0 = (s, some p) → InFlight user f now s p
  | resumed (s s1 : CheckoutState) (p p1 : Suspended) :
      InFlight user f now s p → handleSubmitResume f now s p = (s1, some p1) →
      InFlight user f now s1 p1

/-- The requests of a log that insert an order. -/
def orderInserts (requests : List StoreOp) : List OrderInsert :=
  requests.filterMap (fun op =>
    match op with
    | StoreOp.insertOrder row => some row
    | _ => Option.none)

/-- The vendors of the store: the owners of its events, each once. -/
def vendorsOf (db : Store) : List Nat :=
  (db.events.map (fun e => e.vendor_id)).dedup

/-- The total that `fetchData` recomputes for a vendor and a stored order: the
`total_price` of the vendor's view of the order. -/
def vendorShare (db : Store) (uid : Nat) (r : OrderRow) : Int :=
  (vendorView (ownEventIds db uid) (joinOrder db r)).total_price

/-- The three roles of the application. -/
def appRoles : List String := ["admin", "vendor", "user"]

/-! ## Sample data -/

/-- A billing-contact form that passes `validateForm`. -/
def sampleForm : FormData :=
  { name := "Asha", email := "asha@example.com", phone := "9876543210",
    address := "12 MG Road", city := "Pune", state := "MH", pincode := "411001" }

/-- A vendor, owner of event 1 in the sample store. -/
def vendorV : Identity := { id := 10, email := "v@example.com", role := "vendor", name := "V" }

/-- A second vendor, owner of event 2 in the sample store. -/
def vendorW : Identity := { id := 20, email := "w@example.com", role := "vendor", name := "W" }

/-- A buyer, who placed order 100 in the sample store. -/
def buyerB : Identity := { id := 7, email := "b@example.com", role := "user", name := "B" }

/-- An administrator. -/
def adminA : Identity := { id := 1, email := "a@example.com", role := "admin", name := "A" }

/-- Order 100 of buyer 7 has a line of vendor 10 and a line of vendor 20; order 101 of
buyer 8 has a line of vendor 20 only. -/
def sampleStore : Store :=
  { events := [{ id := 1, vendor_id := 10, name := "E1" }, { id := 2, vendor_id := 20, name := "E2" }],
    orders := [{ id := 100, user_id := 7, status := "confirmed", total_price := 13000,
                 customer_details := sampleForm, created_at := 5 },
               { id := 101, user_id := 8, status := "pending", total_price := 3000,
                 customer_details := sampleForm, created_at := 9 }],
    order_items := [{ id := 1, order_id := 100, event_id := 1, quantity := 2, price := 5000 },
                    { id := 2, order_id := 100, event_id := 2, quantity := 1, price := 3000 },
                    { id := 3, order_id := 101, event_id := 2, quantity := 1, price := 3000 }] }

/-- The state of `OrderHistory` before the first fetch. -/
def emptyHistory : HistoryState := { orders := [], loading := true, console := [] }

/-- The checkout state of buyer 7 on the sample store, with two lines in the cart. -/
def sampleCheckout : CheckoutState :=
  { formData := sampleForm, errors := [], processing := false,
    cartItems := [{ id := 1, name := "E1", price := 5000, quantity := 2 },
                  { id := 2, name := "E2", price := 3000, quantity := 1 }],
    alerts := [], navigation := Option.none, db := sampleStore, requests := [],
    cartClears := 0, console := [] }

/-- Only the `order_items` insert fails. -/
def itemsInsertFails : Faults :=
  { Faults.none with orderItemsInsert := some "insert rejected" }

/-- The `order_items` insert fails, and so does the delete that follows it. -/
def itemsInsertAndDeleteFail : Faults :=
  { Faults.none with orderItemsInsert := some "insert rejected",
                     ordersDelete := some "delete rejected" }

/-- The sample checkout with a phone of five digits and a pincode of three. -/
def badContactCheckout : CheckoutState :=
  { sampleCheckout with
    formData := { sampleForm with phone := "12345", pincode := "123" } }

/-- The sample checkout with nothing in the cart. -/
def emptyCartCheckout : CheckoutState :=
  { sampleCheckout with cartItems := [] }

/-- Only the order insert fails. -/
def orderInsertFails : Faults :=
  { Faults.none with ordersInsert := some "insert rejected" }

/-- The first catalog item of the end-to-end scenario. -/
def eventE1 : CatalogEvent := { id := 1, name := "E1", price := 5000 }

/-- The second catalog item of the end-to-end scenario. -/
def eventE2 : CatalogEvent := { id := 2, name := "E2", price := 3000 }

/-- A store with the two events and no order. -/
def freshStore : Store :=
  { events := [{ id := 1, vendor_id := 10, name := "E1" }, { id := 2, vendor_id := 20, name := "E2" }],
    orders := [], order_items := [] }

/-- The cart of the scenario: E1 twice and E2 once, added to the empty cart. -/
def scenarioCart : List CartItem :=
  addToCart (addToCart [] eventE1 2) eventE2 1

/-- The checkout page of the scenario: the cart, a valid form and the fresh store. -/
def scenarioCheckout : CheckoutState :=
  { formData := sampleForm, errors := [], processing := false, cartItems := scenarioCart,
    alerts := [], navigation := Option.none, db := freshStore, requests := [],
    cartClears := 0, console := [] }

/-- A logged-in state of the auth context. -/
def loggedIn : AuthState := { user := some buyerB, loading := false }

/-- A sign-out that fails and is followed by no notification. -/
def signOutFails : SignOutOutcome :=
  { error := some "Failed to fetch", notifies := Option.none }

/-- A sign-out that succeeds and reports the end of the session. -/
def signOutSucceeds : SignOutOutcome :=
  { error := Option.none, notifies := some Option.none }

/-- A session whose account was signed up as a vendor. -/
def vendorSession : Session :=
  { user := some { id := 10, email := "v@example.com",
                   user_metadata := some { role := some "vendor", name := some "V" } } }

/-- Two events in the full `events` table, one of vendor 10 and one of vendor 20. -/
def sampleEvents : List EventRecord :=
  [{ id := 1, vendor_id := 10, name := "E1", type := "Concert", description := "", price := 5000,
     capacity := 100, date := "2025-01-01", image_url := "", location := "Pune" },
   { id := 2, vendor_id := 20, name := "E2", type := "Wedding", description := "", price := 3000,
     capacity := 50, date := "2025-02-01", image_url := "", location := "Goa" }]

/-- The state of `EventForm` with a filled form over the sample events. -/
def sampleEventForm : EventFormState :=
  { formData := { name := "New name", type := "Festival", description := "d", price := "7000",
                  capacity := "10", date := "2025-03-01", image_url := "", location := "Delhi" },
    loading := true, error := "", saved := 0, events := sampleEvents, requests := [] }

/-- A reading of the numbers typed into the form, for the samples. -/
def readNumber (value : String) : Int :=
  value.toList.foldl (fun n c => 10 * n + ((c.toNat - 48 : Nat) : Int)) 0

/-! ## Lemmas and theorems -/

theorem mem_uniqueValues_aux (xs : List Nat) :
    ∀ (acc : List Nat) (x : Nat),
      x ∈ xs.foldl (fun acc x => if acc.contains x then acc else acc ++ [x]) acc ↔
        x ∈ acc ∨ x ∈ xs := by
  induction xs with
  | nil => intro acc x; simp
  | cons y ys ih =>
    intro acc x
    rw [List.foldl_cons, ih]
    by_cases hy : acc.contains y = true
    · rw [if_pos hy]
      have hy2 : y ∈ acc := by simpa using hy
      constructor
      · rintro (h | h)
        · exact Or.inl h
        · exact Or.inr (List.mem_cons_of_mem _ h)
      · rintro (h | h)
        · exact Or.inl h
        · rcases List.mem_cons.mp h with h | h
          · exact Or.inl (h ▸ hy2)
          · exact Or.inr h
    · rw [if_neg hy]
      simp only [List.mem_append, List.mem_singleton, List.mem_cons]
      tauto

theorem mem_uniqueValues (xs : List Nat) (x : Nat) : x ∈ uniqueValues xs ↔ x ∈ xs := by
  unfold uniqueValues
  rw [mem_uniqueValues_aux]
  simp

theorem sortNewestFirst_perm (l : List Order) : (sortNewestFirst l).Perm l :=
  List.perm_insertionSort _ l

theorem mem_sortNewestFirst (l : List Order) (o : Order) : o ∈ sortNewestFirst l ↔ o ∈ l :=
  (sortNewestFirst_perm l).mem_iff

theorem foldl_lines_total (lines : List OrderItem) :
    ∀ a : Int, lines.foldl (fun sum item => sum + item.price * item.quantity) a
      = a + linesTotal lines := by
  induction lines with
  | nil => intro a; simp [linesTotal]
  | cons l ls ih =>
    intro a
    rw [List.foldl_cons, ih]
    simp [linesTotal, add_assoc]

theorem vendorView_total (eventIds : List Nat) (o : Order) :
    (vendorView eventIds o).total_price = linesTotal (vendorView eventIds o).order_items := by
  simp [vendorView, foldl_lines_total]

/-- What `fetchData` shows when the load succeeded. -/
theorem fetchData_orders_of_ok (u : Identity) (filter : String) (db : Store) (f : Faults)
    (st : HistoryState) (h : (loadOrders u db f).2 = Option.none) :
    (fetchData (some u) filter db f st).orders =
      sortNewestFirst (if filter ≠ "all" then
        (loadOrders u db f).1.filter (fun order => order.status = filter)
        else (loadOrders u db f).1) := by
  rcases hl : loadOrders u db f with ⟨fo, fe⟩
  rw [hl] at h
  simp only at h
  subst h
  simp only [fetchData, hl]

/-- What `fetchData` shows when the load failed. -/
theorem fetchData_orders_of_error (u : Identity) (filter : String) (db : Store) (f : Faults)
    (st : HistoryState) (e : String) (h : (loadOrders u db f).2 = some e) :
    (fetchData (some u) filter db f st).orders = [] := by
  rcases hl : loadOrders u db f with ⟨fo, fe⟩
  rw [hl] at h
  simp only at h
  subst h
  simp only [fetchData, hl]

theorem mem_fetchData_orders (u : Identity) (filter : String) (db : Store) (f : Faults)
    (st : HistoryState) (o : Order) (h : o ∈ (fetchData (some u) filter db f st).orders) :
    o ∈ (loadOrders u db f).1 ∧ (filter = "all" ∨ o.status = filter) := by
  cases he : (loadOrders u db f).2 with
  | some e => rw [fetchData_orders_of_error u filter db f st e he] at h; simp at h
  | none =>
    rw [fetchData_orders_of_ok u filter db f st he, mem_sortNewestFirst] at h
    by_cases hf : filter = "all"
    · simp [hf] at h; exact ⟨h, Or.inl hf⟩
    · simp [hf] at h; exact ⟨h.1, Or.inr h.2⟩

theorem mem_loadOrders_vendor (u : Identity) (db : Store) (f : Faults) (hrole : u.role = "vendor")
    (o : Order) (h : o ∈ (loadOrders u db f).1) :
    ∃ r ∈ db.orders, o = vendorView (ownEventIds db u.id) (joinOrder db r) ∧
      ∃ l ∈ db.order_items, l.order_id = r.id ∧ l.event_id ∈ ownEventIds db u.id := by
  unfold loadOrders at h
  rw [if_pos hrole] at h
  unfold selectEventIds selectOrderIds selectOrdersIn at h
  cases h1 : f.eventsSelect with
  | some e => simp [h1] at h
  | none =>
    simp only [h1] at h
    split at h
    · cases h2 : f.orderItemsSelect with
      | some e => simp [h2] at h
      | none =>
        simp only [h2] at h
        split at h
        · cases h3 : f.ordersSelect with
          | some e => simp [h3] at h
          | none =>
            simp only [h3, List.mem_map, List.mem_filter] at h
            obtain ⟨o1, ⟨r, ⟨hr, hin⟩, rfl⟩, rfl⟩ := h
            refine ⟨r, hr, rfl, ?_⟩
            have hin2 := List.elem_iff.mp hin
            rw [mem_uniqueValues] at hin2
            simp only [List.mem_map, List.mem_filter] at hin2
            obtain ⟨l, ⟨hl, hle⟩, hlo⟩ := hin2
            exact ⟨l, hl, hlo, by simpa [ownEventIds] using hle⟩
        · simp at h
    · simp at h

theorem touchesVendor_iff (db : Store) (uid : Nat) (r : OrderRow) :
    touchesVendor db uid r = true ↔
      ∃ l ∈ db.order_items, l.order_id = r.id ∧ l.event_id ∈ ownEventIds db uid := by
  simp [touchesVendor]

theorem mem_ownEventIds (db : Store) (uid x : Nat) :
    x ∈ ownEventIds db uid ↔ ∃ e ∈ db.events, e.id = x ∧ e.vendor_id = uid := by
  simp only [ownEventIds, List.mem_map, List.mem_filter, decide_eq_true_eq]
  constructor
  · rintro ⟨e, ⟨he, hv⟩, hx⟩; exact ⟨e, he, hx, hv⟩
  · rintro ⟨e, he, hx, hv⟩; exact ⟨e, ⟨he, hv⟩, hx⟩

/-- The load of a vendor when no read fails: the stored orders that have one of the
vendor's lines, each reduced to the vendor's view. -/
theorem loadOrders_vendor_ok (u : Identity) (db : Store) (f : Faults) (hrole : u.role = "vendor")
    (hev : f.eventsSelect = Option.none) (hit : f.orderItemsSelect = Option.none)
    (hor : f.ordersSelect = Option.none) :
    loadOrders u db f =
      ((db.orders.filter (touchesVendor db u.id)).map
        (fun r => vendorView (ownEventIds db u.id) (joinOrder db r)), Option.none) := by
  have key : ∀ r : OrderRow,
      (uniqueValues ((db.order_items.filter
        (fun l => (ownEventIds db u.id).contains l.event_id)).map (fun l => l.order_id))).contains r.id
        = touchesVendor db u.id r := by
    intro r
    rw [Bool.eq_iff_iff, touchesVendor_iff]
    constructor
    · intro h
      have h2 := (mem_uniqueValues _ _).mp (List.elem_iff.mp h)
      simp only [List.mem_map, List.mem_filter] at h2
      obtain ⟨l, ⟨hl, hle⟩, hlo⟩ := h2
      exact ⟨l, hl, hlo, List.elem_iff.mp hle⟩
    · rintro ⟨l, hl, hlo, hle⟩
      apply List.elem_iff.mpr
      rw [mem_uniqueValues]
      simp only [List.mem_map, List.mem_filter]
      exact ⟨l, ⟨hl, List.elem_iff.mpr hle⟩, hlo⟩
  unfold loadOrders
  rw [if_pos hrole]
  simp only [selectEventIds, selectOrderIds, selectOrdersIn, hev, hit, hor]
  change (if (ownEventIds db u.id).length > 0 then
      (if (uniqueValues ((db.order_items.filter
          (fun l => (ownEventIds db u.id).contains l.event_id)).map
            (fun l => l.order_id))).length > 0 then
        (((db.orders.filter (fun o => (uniqueValues ((db.order_items.filter
          (fun l => (ownEventIds db u.id).contains l.event_id)).map
            (fun l => l.order_id))).contains o.id)).map (joinOrder db)).map
              (vendorView (ownEventIds db u.id)), Option.none)
       else ([], Option.none))
     else ([], Option.none)) = _
  have hfilter : db.orders.filter (fun o => (uniqueValues ((db.order_items.filter
          (fun l => (ownEventIds db u.id).contains l.event_id)).map
            (fun l => l.order_id))).contains o.id) = db.orders.filter (touchesVendor db u.id) :=
    List.filter_congr (fun r _ => key r)
  by_cases h1 : (ownEventIds db u.id).length > 0
  · rw [if_pos h1]
    by_cases h2 : (uniqueValues ((db.order_items.filter
          (fun l => (ownEventIds db u.id).contains l.event_id)).map
            (fun l => l.order_id))).length > 0
    · rw [if_pos h2, hfilter, List.map_map]
      rfl
    · rw [if_neg h2]
      have hnil : uniqueValues ((db.order_items.filter
          (fun l => (ownEventIds db u.id).contains l.event_id)).map
            (fun l => l.order_id)) = [] := List.length_eq_zero.mp (by omega)
      have : db.orders.filter (touchesVendor db u.id) = [] := by
        rw [← hfilter, hnil]
        simp
      rw [this]
      rfl
  · rw [if_neg h1]
    have hnil : ownEventIds db u.id = [] := List.length_eq_zero.mp (by omega)
    have : db.orders.filter (touchesVendor db u.id) = [] := by
      rw [List.filter_eq_nil_iff]
      intro r _
      simp [touchesVendor, hnil]
    rw [this]
    rfl

/-- The load of a buyer or an administrator when the read succeeds. -/
theorem loadOrders_other_ok (u : Identity) (db : Store) (f : Faults) (hrole : u.role ≠ "vendor")
    (hor : f.ordersSelect = Option.none) :
    loadOrders u db f =
      (if u.role = "user" then (db.orders.filter (fun o => o.user_id = u.id)).map (joinOrder db)
        else db.orders.map (joinOrder db), Option.none) := by
  unfold loadOrders
  rw [if_neg hrole]
  by_cases h : u.role = "user"
  · simp [selectOrders, hor, h]
  · simp [selectOrders, hor, h]

theorem mem_loadOrders_user (u : Identity) (db : Store) (f : Faults) (hrole : u.role = "user")
    (o : Order) (h : o ∈ (loadOrders u db f).1) :
    ∃ r ∈ db.orders, r.user_id = u.id ∧ o = joinOrder db r := by
  have hv : u.role ≠ "vendor" := by rw [hrole]; decide
  cases hor : f.ordersSelect with
  | some e =>
    unfold loadOrders at h
    rw [if_neg hv] at h
    simp [selectOrders, hor] at h
  | none =>
    rw [loadOrders_other_ok u db f hv hor, if_pos hrole] at h
    simp only [List.mem_map, List.mem_filter, decide_eq_true_eq] at h
    obtain ⟨r, ⟨hr, hu⟩, rfl⟩ := h
    exact ⟨r, hr, hu, rfl⟩

theorem embedItems_toRow (db : Store) (order_id : Nat) :
    (embedItems db order_id).map OrderItem.toRow =
      db.order_items.filter (fun r => r.order_id = order_id) := by
  unfold embedItems
  rw [List.map_map]
  have : (OrderItem.toRow ∘ joinItem db) = id := by
    funext r
    rfl
  rw [this, List.map_id]

/-- C1: every line of every order that `fetchData` shows to a vendor `V` has an `event_id`
in `V`'s own event-id set, that is, it references an event whose `vendor_id` is `V.id`;
a stored line whose event is not one of `V`'s does not appear in any order shown to `V`,
and when event ids are unique every event a shown line references is owned by `V`. -/
theorem C1_vendor_lines_are_own (V : Identity) (filter : String) (db : Store) (f : Faults)
    (st : HistoryState) (hrole : V.role = "vendor") :
    ∀ o ∈ (fetchData (some V) filter db f st).orders,
      (∀ l ∈ o.order_items,
        l.event_id ∈ ownEventIds db V.id ∧
        (∃ e ∈ db.events, e.id = l.event_id ∧ e.vendor_id = V.id) ∧
        ((db.events.map (fun e => e.id)).Nodup →
          ∀ e ∈ db.events, e.id = l.event_id → e.vendor_id = V.id)) ∧
      (∀ r ∈ db.order_items, r.event_id ∉ ownEventIds db V.id →
        joinItem db r ∉ o.order_items) := by
  intro o ho
  obtain ⟨r, _, rfl, _⟩ :=
    mem_loadOrders_vendor V db f hrole o (mem_fetchData_orders V filter db f st o ho).1
  have hown : ∀ l ∈ (vendorView (ownEventIds db V.id) (joinOrder db r)).order_items,
      l.event_id ∈ ownEventIds db V.id := by
    intro l hl
    simp only [vendorView, List.mem_filter] at hl
    exact List.elem_iff.mp hl.2
  refine ⟨fun l hl => ⟨hown l hl, (mem_ownEventIds db V.id l.event_id).mp (hown l hl), ?_⟩, ?_⟩
  · intro hnd e he hid
    obtain ⟨e2, he2, hid2, hv2⟩ := (mem_ownEventIds db V.id l.event_id).mp (hown l hl)
    have : e = e2 :=
      List.inj_on_of_nodup_map hnd he he2 (hid.trans hid2.symm)
    rw [this]; exact hv2
  · intro row _ hnot hmem
    exact hnot (hown _ hmem)

/-- Witness of C1 on the sample store: vendor 10 sees order 100 with its own line only. -/
theorem C1_vendor_lines_are_own_witness :
    vendorV.role = "vendor" ∧
    ∀ o ∈ (fetchData (some vendorV) "all" sampleStore Faults.none emptyHistory).orders,
      (∀ l ∈ o.order_items,
        l.event_id ∈ ownEventIds sampleStore vendorV.id ∧
        (∃ e ∈ sampleStore.events, e.id = l.event_id ∧ e.vendor_id = vendorV.id) ∧
        ((sampleStore.events.map (fun e => e.id)).Nodup →
          ∀ e ∈ sampleStore.events, e.id = l.event_id → e.vendor_id = vendorV.id)) ∧
      (∀ r ∈ sampleStore.order_items, r.event_id ∉ ownEventIds sampleStore vendorV.id →
        joinItem sampleStore r ∉ o.order_items) :=
  ⟨by decide,
   C1_vendor_lines_are_own vendorV "all" sampleStore Faults.none emptyHistory (by decide)⟩

/-- C2: for every order that `fetchData` shows to a vendor, the `total_price` shown is the
sum of `price × quantity` over the lines shown for that order, and the order is a stored
order whose `id`, `user_id`, `status`, `customer_details` and `created_at` are shown
unchanged. -/
theorem C2_vendor_total_recomputed (V : Identity) (filter : String) (db : Store) (f : Faults)
    (st : HistoryState) (hrole : V.role = "vendor") :
    ∀ o ∈ (fetchData (some V) filter db f st).orders,
      o.total_price = linesTotal o.order_items ∧
      o.order_items = (embedItems db o.id).filter
        (fun l => (ownEventIds db V.id).contains l.event_id) ∧
      ∃ r ∈ db.orders, o.id = r.id ∧ o.user_id = r.user_id ∧ o.status = r.status ∧
        o.customer_details = r.customer_details ∧ o.created_at = r.created_at := by
  intro o ho
  obtain ⟨r, hr, rfl, _⟩ :=
    mem_loadOrders_vendor V db f hrole o (mem_fetchData_orders V filter db f st o ho).1
  exact ⟨vendorView_total _ _, rfl, r, hr, rfl, rfl, rfl, rfl, rfl⟩

/-- Witness of C2 on the sample store: vendor 10 is shown order 100 with the total 10000
of its own line, where the stored total is 13000. -/
theorem C2_vendor_total_recomputed_witness :
    vendorV.role = "vendor" ∧
    (∀ o ∈ (fetchData (some vendorV) "all" sampleStore Faults.none emptyHistory).orders,
      o.total_price = linesTotal o.order_items ∧
      o.order_items = (embedItems sampleStore o.id).filter
        (fun l => (ownEventIds sampleStore vendorV.id).contains l.event_id) ∧
      ∃ r ∈ sampleStore.orders, o.id = r.id ∧ o.user_id = r.user_id ∧ o.status = r.status ∧
        o.customer_details = r.customer_details ∧ o.created_at = r.created_at) ∧
    (fetchData (some vendorV) "all" sampleStore Faults.none emptyHistory).orders.map
      (fun o => (o.id, o.total_price)) = [(100, 10000)] :=
  ⟨by decide,
   C2_vendor_total_recomputed vendorV "all" sampleStore Faults.none emptyHistory (by decide),
   by decide⟩

/-- What `fetchData` shows to a vendor under the tab `all` when no read fails. -/
theorem fetchData_vendor_all (V : Identity) (db : Store) (f : Faults) (st : HistoryState)
    (hrole : V.role = "vendor") (hev : f.eventsSelect = Option.none)
    (hit : f.orderItemsSelect = Option.none) (hor : f.ordersSelect = Option.none) :
    (fetchData (some V) "all" db f st).orders =
      sortNewestFirst ((db.orders.filter (touchesVendor db V.id)).map
        (fun r => vendorView (ownEventIds db V.id) (joinOrder db r))) := by
  have hl := loadOrders_vendor_ok V db f hrole hev hit hor
  rw [fetchData_orders_of_ok V "all" db f st (by rw [hl]), hl]
  simp

/-- C3: for a vendor `V`, the tab `all` and reads that succeed, the orders `fetchData`
shows are the stored orders with at least one line that references an event whose
`vendor_id` is `V.id`: every shown order is the vendor's view of such a stored order,
every such stored order is shown, and it is shown exactly once when order ids are unique;
nothing is shown when `V` owns no event or when no line references one of `V`'s events.
The lines nested under a selected order are the stored lines with its `order_id`. -/
theorem C3_vendor_orders_iff_own_line (V : Identity) (db : Store) (f : Faults)
    (st : HistoryState) (hrole : V.role = "vendor") (hev : f.eventsSelect = Option.none)
    (hit : f.orderItemsSelect = Option.none) (hor : f.ordersSelect = Option.none) :
    (∀ r ∈ db.orders, (joinOrder db r).order_items.map OrderItem.toRow =
        db.order_items.filter (fun l => l.order_id = r.id)) ∧
    (∀ o ∈ (fetchData (some V) "all" db f st).orders,
      ∃ r ∈ db.orders, o = vendorView (ownEventIds db V.id) (joinOrder db r)) ∧
    (∀ r ∈ db.orders,
      ((∃ o ∈ (fetchData (some V) "all" db f st).orders, o.id = r.id) ↔
        ∃ l ∈ db.order_items, l.order_id = r.id ∧
          ∃ e ∈ db.events, e.id = l.event_id ∧ e.vendor_id = V.id) ∧
      ((∃ l ∈ db.order_items, l.order_id = r.id ∧
          ∃ e ∈ db.events, e.id = l.event_id ∧ e.vendor_id = V.id) →
        vendorView (ownEventIds db V.id) (joinOrder db r) ∈
          (fetchData (some V) "all" db f st).orders)) ∧
    ((db.orders.map (fun r => r.id)).Nodup →
      ∀ r ∈ db.orders,
        (∃ l ∈ db.order_items, l.order_id = r.id ∧
          ∃ e ∈ db.events, e.id = l.event_id ∧ e.vendor_id = V.id) →
        ((fetchData (some V) "all" db f st).orders.map (fun o => o.id)).count r.id = 1) ∧
    ((∀ e ∈ db.events, e.vendor_id ≠ V.id) → (fetchData (some V) "all" db f st).orders = []) ∧
    ((∀ l ∈ db.order_items, ∀ e ∈ db.events, e.id = l.event_id → e.vendor_id ≠ V.id) →
      (fetchData (some V) "all" db f st).orders = []) := by
  have hres := fetchData_vendor_all V db f st hrole hev hit hor
  have htouch : ∀ r : OrderRow, touchesVendor db V.id r = true ↔
      ∃ l ∈ db.order_items, l.order_id = r.id ∧
        ∃ e ∈ db.events, e.id = l.event_id ∧ e.vendor_id = V.id := by
    intro r
    rw [touchesVendor_iff]
    constructor
    · rintro ⟨l, hl, ho, he⟩
      exact ⟨l, hl, ho, (mem_ownEventIds db V.id l.event_id).mp he⟩
    · rintro ⟨l, hl, ho, he⟩
      exact ⟨l, hl, ho, (mem_ownEventIds db V.id l.event_id).mpr he⟩
  have hmem : ∀ o, o ∈ (fetchData (some V) "all" db f st).orders ↔
      ∃ r ∈ db.orders, touchesVendor db V.id r = true ∧
        o = vendorView (ownEventIds db V.id) (joinOrder db r) := by
    intro o
    rw [hres, mem_sortNewestFirst]
    simp only [List.mem_map, List.mem_filter]
    constructor
    · rintro ⟨r, ⟨hr, ht⟩, rfl⟩; exact ⟨r, hr, ht, rfl⟩
    · rintro ⟨r, hr, ht, rfl⟩; exact ⟨r, ⟨hr, ht⟩, rfl⟩
  have hempty : (∀ r ∈ db.orders, touchesVendor db V.id r = false) →
      (fetchData (some V) "all" db f st).orders = [] := by
    intro h
    apply List.eq_nil_iff_forall_not_mem.mpr
    intro o ho
    obtain ⟨r, hr, ht, _⟩ := (hmem o).mp ho
    rw [h r hr] at ht
    exact Bool.noConfusion ht
  refine ⟨fun r _ => embedItems_toRow db r.id, ?_, ?_, ?_, ?_, ?_⟩
  · intro o ho
    obtain ⟨r, hr, _, ho2⟩ := (hmem o).mp ho
    exact ⟨r, hr, ho2⟩
  · intro r hr
    refine ⟨⟨?_, ?_⟩, ?_⟩
    · rintro ⟨o, ho, hid⟩
      obtain ⟨r2, _, ht, rfl⟩ := (hmem o).mp ho
      obtain ⟨l, hl, hlo, he⟩ := (htouch r2).mp ht
      exact ⟨l, hl, hlo.trans hid, he⟩
    · intro h
      exact ⟨_, (hmem _).mpr ⟨r, hr, (htouch r).mpr h, rfl⟩, rfl⟩
    · intro h
      exact (hmem _).mpr ⟨r, hr, (htouch r).mpr h, rfl⟩
  · intro hnd r hr h
    have hperm : ((fetchData (some V) "all" db f st).orders.map (fun o => o.id)).Perm
        ((db.orders.filter (touchesVendor db V.id)).map (fun r => r.id)) := by
      rw [hres]
      have h1 := (sortNewestFirst_perm ((db.orders.filter (touchesVendor db V.id)).map
        (fun r => vendorView (ownEventIds db V.id) (joinOrder db r)))).map (fun o => o.id)
      rw [List.map_map] at h1
      exact h1
    rw [hperm.count_eq]
    have hsub : ((db.orders.filter (touchesVendor db V.id)).map (fun r => r.id)).Sublist
        (db.orders.map (fun r => r.id)) :=
      (List.filter_sublist db.orders).map _
    apply List.count_eq_one_of_mem (hnd.sublist hsub)
    exact List.mem_map.mpr ⟨r, List.mem_filter.mpr ⟨hr, (htouch r).mpr h⟩, rfl⟩
  · intro h
    apply hempty
    intro r _
    rw [Bool.eq_false_iff]
    intro ht
    obtain ⟨l, _, _, e, he, _, hv⟩ := (htouch r).mp ht
    exact h e he hv
  · intro h
    apply hempty
    intro r _
    rw [Bool.eq_false_iff]
    intro ht
    obtain ⟨l, hl, _, e, he, hid, hv⟩ := (htouch r).mp ht
    exact h l hl e he hid hv

/-- Witness of C3 on the sample store: vendor 10 has a line in order 100 only, and is
shown exactly the order 100. -/
theorem C3_vendor_orders_iff_own_line_witness :
    (vendorV.role = "vendor" ∧ Faults.none.eventsSelect = Option.none ∧
      Faults.none.orderItemsSelect = Option.none ∧ Faults.none.ordersSelect = Option.none) ∧
    ((sampleStore.orders.map (fun r => r.id)).Nodup →
      ∀ r ∈ sampleStore.orders,
        (∃ l ∈ sampleStore.order_items, l.order_id = r.id ∧
          ∃ e ∈ sampleStore.events, e.id = l.event_id ∧ e.vendor_id = vendorV.id) →
        ((fetchData (some vendorV) "all" sampleStore Faults.none emptyHistory).orders.map
          (fun o => o.id)).count r.id = 1) ∧
    (fetchData (some vendorV) "all" sampleStore Faults.none emptyHistory).orders.map
      (fun o => o.id) = [100] :=
  ⟨⟨by decide, rfl, rfl, rfl⟩,
   (C3_vendor_orders_iff_own_line vendorV sampleStore Faults.none emptyHistory
      (by decide) rfl rfl rfl).2.2.2.1,
   by decide⟩

/-- C4: for an identity with role `user` and any status tab, every order `fetchData`
shows has `user_id` equal to the identity's id; and when the read succeeds, every stored
order of that buyer that passes the status tab is shown with its stored `total_price` and
with all of its stored lines. -/
theorem C4_user_sees_own_orders (U : Identity) (filter : String) (db : Store) (f : Faults)
    (st : HistoryState) (hrole : U.role = "user") :
    (∀ o ∈ (fetchData (some U) filter db f st).orders, o.user_id = U.id) ∧
    (f.ordersSelect = Option.none →
      ∀ r ∈ db.orders, r.user_id = U.id → (filter = "all" ∨ r.status = filter) →
        ∃ o ∈ (fetchData (some U) filter db f st).orders,
          o.id = r.id ∧ o.user_id = r.user_id ∧ o.status = r.status ∧
          o.total_price = r.total_price ∧ o.customer_details = r.customer_details ∧
          o.created_at = r.created_at ∧
          o.order_items.map OrderItem.toRow =
            db.order_items.filter (fun l => l.order_id = r.id)) := by
  have hv : U.role ≠ "vendor" := by rw [hrole]; decide
  constructor
  · intro o ho
    obtain ⟨r, _, hu, rfl⟩ :=
      mem_loadOrders_user U db f hrole o (mem_fetchData_orders U filter db f st o ho).1
    exact hu
  · intro hor r hr hu hpass
    have hl := loadOrders_other_ok U db f hv hor
    rw [if_pos hrole] at hl
    refine ⟨joinOrder db r, ?_, rfl, rfl, rfl, rfl, rfl, rfl, embedItems_toRow db r.id⟩
    rw [fetchData_orders_of_ok U filter db f st (by rw [hl]), mem_sortNewestFirst, hl]
    have hin : joinOrder db r ∈ (db.orders.filter (fun o => o.user_id = U.id)).map (joinOrder db) :=
      List.mem_map.mpr ⟨r, List.mem_filter.mpr ⟨hr, by simpa using hu⟩, rfl⟩
    by_cases hf : filter = "all"
    · simpa [hf] using hin
    · rcases hpass with h | h
      · exact absurd h hf
      · rw [if_pos hf]
        exact List.mem_filter.mpr ⟨hin, by simpa [joinOrder] using h⟩

/-- Witness of C4 on the sample store: buyer 7 is shown order 100 and not order 101. -/
theorem C4_user_sees_own_orders_witness :
    buyerB.role = "user" ∧
    (∀ o ∈ (fetchData (some buyerB) "confirmed" sampleStore Faults.none emptyHistory).orders,
      o.user_id = buyerB.id) ∧
    (fetchData (some buyerB) "confirmed" sampleStore Faults.none emptyHistory).orders.map
      (fun o => (o.id, o.total_price, o.order_items.length)) = [(100, 13000, 2)] :=
  ⟨by decide,
   (C4_user_sees_own_orders buyerB "confirmed" sampleStore Faults.none emptyHistory
      (by decide)).1,
   by decide⟩

/-- C5: for an identity with role `admin`, the tab `all` and a read that succeeds, what
`fetchData` shows is a rearrangement of the stored orders, each exactly as often as it is
stored (once under unique ids), and each with its stored `total_price` and all of its
stored lines. -/
theorem C5_admin_sees_all_orders (A : Identity) (db : Store) (f : Faults) (st : HistoryState)
    (hrole : A.role = "admin") (hor : f.ordersSelect = Option.none) :
    ((fetchData (some A) "all" db f st).orders).Perm (db.orders.map (joinOrder db)) ∧
    (∀ r ∈ db.orders, joinOrder db r ∈ (fetchData (some A) "all" db f st).orders) ∧
    (∀ r : OrderRow, (joinOrder db r).id = r.id ∧ (joinOrder db r).total_price = r.total_price ∧
      (joinOrder db r).order_items.map OrderItem.toRow =
        db.order_items.filter (fun l => l.order_id = r.id)) ∧
    ((db.orders.map (fun r => r.id)).Nodup → ∀ r ∈ db.orders,
      ((fetchData (some A) "all" db f st).orders.map (fun o => o.id)).count r.id = 1) := by
  have hv : A.role ≠ "vendor" := by rw [hrole]; decide
  have hu : A.role ≠ "user" := by rw [hrole]; decide
  have hl := loadOrders_other_ok A db f hv hor
  rw [if_neg hu] at hl
  have hres : (fetchData (some A) "all" db f st).orders =
      sortNewestFirst (db.orders.map (joinOrder db)) := by
    rw [fetchData_orders_of_ok A "all" db f st (by rw [hl]), hl]
    simp
  have hperm : ((fetchData (some A) "all" db f st).orders).Perm (db.orders.map (joinOrder db)) := by
    rw [hres]; exact sortNewestFirst_perm _
  refine ⟨hperm, ?_, fun r => ⟨rfl, rfl, embedItems_toRow db r.id⟩, ?_⟩
  · intro r hr
    exact hperm.mem_iff.mpr (List.mem_map.mpr ⟨r, hr, rfl⟩)
  · intro hnd r hr
    have hp2 := hperm.map (fun o => o.id)
    rw [List.map_map] at hp2
    rw [hp2.count_eq]
    exact List.count_eq_one_of_mem hnd (List.mem_map.mpr ⟨r, hr, rfl⟩)

/-- Witness of C5 on the sample store: the administrator is shown both orders with their
stored totals and all lines, the most recent first. -/
theorem C5_admin_sees_all_orders_witness :
    (adminA.role = "admin" ∧ Faults.none.ordersSelect = Option.none) ∧
    ((fetchData (some adminA) "all" sampleStore Faults.none emptyHistory).orders).Perm
      (sampleStore.orders.map (joinOrder sampleStore)) ∧
    (fetchData (some adminA) "all" sampleStore Faults.none emptyHistory).orders.map
      (fun o => (o.id, o.total_price, o.order_items.length)) = [(101, 3000, 1), (100, 13000, 2)] :=
  ⟨⟨by decide, rfl⟩,
   (C5_admin_sees_all_orders adminA sampleStore Faults.none emptyHistory (by decide) rfl).1,
   by decide⟩

/-- C6: when identity resolution is over (`loading = false`), `ProtectedRoute` returns the
redirect to `/login` if the user is absent; otherwise the redirect to `/unauthorized` if
`allowedRoles` is given and does not contain the user's role; otherwise its children.
So the children are returned exactly when the user is present and `allowedRoles` is left
out or contains the user's role. -/
theorem C6_route_guard_decision (user : Option Identity) (allowedRoles : Option (List String)) :
    (user = Option.none →
      ProtectedRoute { user := user, loading := false } allowedRoles =
        Rendered.navigate "/login" true) ∧
    (∀ u roles, user = some u → allowedRoles = some roles → u.role ∉ roles →
      ProtectedRoute { user := user, loading := false } allowedRoles =
        Rendered.navigate "/unauthorized" true) ∧
    (∀ u, user = some u →
      (allowedRoles = Option.none ∨ ∃ roles, allowedRoles = some roles ∧ u.role ∈ roles) →
      ProtectedRoute { user := user, loading := false } allowedRoles = Rendered.children) ∧
    (ProtectedRoute { user := user, loading := false } allowedRoles = Rendered.children ↔
      ∃ u, user = some u ∧
        (allowedRoles = Option.none ∨ ∃ roles, allowedRoles = some roles ∧ u.role ∈ roles)) := by
  cases user with
  | none => simp [ProtectedRoute]
  | some u =>
    cases allowedRoles with
    | none => simp [ProtectedRoute]
    | some roles =>
      by_cases h : u.role ∈ roles
      · simp [ProtectedRoute, h]
      · simp [ProtectedRoute, h]

/-- Witness of C6: a vendor entering a route for administrators is sent to
`/unauthorized`, and is let into a route for vendors. -/
theorem C6_route_guard_decision_witness :
    ProtectedRoute { user := some vendorV, loading := false } (some ["admin"]) =
      Rendered.navigate "/unauthorized" true ∧
    ProtectedRoute { user := some vendorV, loading := false } (some ["vendor"]) =
      Rendered.children :=
  ⟨(C6_route_guard_decision (some vendorV) (some ["admin"])).2.1 vendorV ["admin"] rfl rfl
      (by decide),
   (C6_route_guard_decision (some vendorV) (some ["vendor"])).2.2.1 vendorV rfl
      (Or.inr ⟨["vendor"], rfl, by decide⟩)⟩

/-- C7: while identity resolution is pending (`loading = true`), `ProtectedRoute` returns
the spinner for every user, absent or present, and every `allowedRoles`; the spinner is
neither the children nor a redirect. -/
theorem C7_route_guard_loading (user : Option Identity) (allowedRoles : Option (List String)) :
    ProtectedRoute { user := user, loading := true } allowedRoles = Rendered.spinner ∧
    ProtectedRoute { user := user, loading := true } allowedRoles ≠ Rendered.children ∧
    ProtectedRoute { user := user, loading := true } allowedRoles ≠
      Rendered.navigate "/login" true ∧
    ProtectedRoute { user := user, loading := true } allowedRoles ≠
      Rendered.navigate "/unauthorized" true ∧
    ∀ dest replace,
      ProtectedRoute { user := user, loading := true } allowedRoles ≠
        Rendered.navigate dest replace := by
  have h : ProtectedRoute { user := user, loading := true } allowedRoles = Rendered.spinner := by
    simp [ProtectedRoute]
  rw [h]
  exact ⟨rfl, by simp, by simp, by simp, fun _ _ => by simp⟩

theorem le_foldl_max (ids : List Nat) :
    ∀ a : Nat, a ≤ ids.foldl max a ∧ ∀ x ∈ ids, x ≤ ids.foldl max a := by
  induction ids with
  | nil => intro a; simp
  | cons y ys ih =>
    intro a
    rw [List.foldl_cons]
    obtain ⟨h1, h2⟩ := ih (max a y)
    refine ⟨le_trans (le_max_left a y) h1, ?_⟩
    intro x hx
    rcases List.mem_cons.mp hx with rfl | hx
    · exact le_trans (le_max_right a x) h1
    · exact h2 x hx

theorem freshId_not_mem (ids : List Nat) : freshId ids ∉ ids := by
  intro h
  have := (le_foldl_max ids 0).2 _ h
  unfold freshId at this
  omega

/-- Deleting a freshly inserted order restores the stored orders. -/
theorem filter_fresh_order (orders : List OrderRow) (created : OrderRow)
    (hid : created.id = freshId (orders.map (fun o => o.id))) :
    (orders ++ [created]).filter (fun o => o.id ≠ created.id) = orders := by
  rw [List.filter_append]
  have h1 : orders.filter (fun o => o.id ≠ created.id) = orders := by
    rw [List.filter_eq_self]
    intro o ho
    have hne : o.id ≠ created.id := by
      intro he
      apply freshId_not_mem (orders.map (fun o => o.id))
      rw [← hid, ← he]
      exact List.mem_map.mpr ⟨o, ho, rfl⟩
    simpa using hne
  rw [h1]
  simp

/-- C8: with a valid form, when the order insert succeeds and the `order_items` insert
fails, `handleSubmit` sends three requests: the order insert, the `order_items` insert and
a delete of the order created by the first, by its id; when that delete succeeds the
store is the one before the checkout.  The message shown is the `order_items` insert
error, the cart is not cleared and there is no navigation. -/
theorem C8_items_failure_compensated (user : Identity) (f : Faults) (now : Int)
    (s : CheckoutState) (itemsError : String)
    (hvalid : (validateForm s.formData).1 = true)
    (hins : f.ordersInsert = Option.none) (hitems : f.orderItemsInsert = some itemsError) :
    (∃ created : OrderRow,
      (insertOrder s.db f now
        { user_id := user.id, total_price := getCartTotal s.cartItems, status := "confirmed",
          customer_details := s.formData }).1 = Except.ok created ∧
      created.id ∉ s.db.orders.map (fun o => o.id) ∧
      (handleSubmit user f now s).requests = s.requests ++
        [StoreOp.insertOrder
          { user_id := user.id, total_price := getCartTotal s.cartItems, status := "confirmed",
            customer_details := s.formData },
         StoreOp.insertOrderItems (s.cartItems.map (fun item =>
          { order_id := created.id, event_id := item.id,
            quantity := item.quantity, price := item.price })),
         StoreOp.deleteOrder created.id]) ∧
    (f.ordersDelete = Option.none → (handleSubmit user f now s).db = s.db) ∧
    (handleSubmit user f now s).alerts =
      s.alerts ++ ["Error saving order items: " ++ itemsError] ∧
    (handleSubmit user f now s).cartItems = s.cartItems ∧
    (handleSubmit user f now s).navigation = s.navigation := by
  have hv : ¬ ((validateForm s.formData).1 = false) := by rw [hvalid]; decide
  refine ⟨⟨{ id := freshId (s.db.orders.map (fun o => o.id)), user_id := user.id,
             status := "confirmed", total_price := getCartTotal s.cartItems,
             customer_details := s.formData, created_at := now }, ?_, ?_, ?_⟩, ?_, ?_, ?_, ?_⟩
  · simp [insertOrder, hins]
  · exact freshId_not_mem _
  · simp [handleSubmit, hv, insertOrder, insertOrderItems, hins, hitems]
  · intro hdel
    simp only [handleSubmit, if_neg hv, insertOrder, insertOrderItems, deleteOrder, hins, hitems,
      hdel]
    have := filter_fresh_order s.db.orders
      { id := freshId (s.db.orders.map (fun o => o.id)), user_id := user.id,
        status := "confirmed", total_price := getCartTotal s.cartItems,
        customer_details := s.formData, created_at := now } rfl
    simp only at this
    rw [this]
  · simp [handleSubmit, hv, insertOrder, insertOrderItems, hins, hitems]
  · simp [handleSubmit, hv, insertOrder, insertOrderItems, hins, hitems]
  · simp [handleSubmit, hv, insertOrder, insertOrderItems, hins, hitems]

/-- Witness of C8 on the sample checkout: order 102 is created and deleted again. -/
theorem C8_items_failure_compensated_witness :
    ((validateForm sampleCheckout.formData).1 = true ∧
      itemsInsertFails.ordersInsert = Option.none ∧
      itemsInsertFails.orderItemsInsert = some "insert rejected" ∧
      itemsInsertFails.ordersDelete = Option.none) ∧
    (handleSubmit buyerB itemsInsertFails 50 sampleCheckout).db = sampleCheckout.db ∧
    (handleSubmit buyerB itemsInsertFails 50 sampleCheckout).alerts =
      ["Error saving order items: insert rejected"] ∧
    (handleSubmit buyerB itemsInsertFails 50 sampleCheckout).requests.getLast? =
      some (StoreOp.deleteOrder 102) :=
  ⟨⟨by decide, rfl, rfl, rfl⟩,
   (C8_items_failure_compensated buyerB itemsInsertFails 50 sampleCheckout "insert rejected"
      (by decide) rfl rfl).2.1 rfl,
   (C8_items_failure_compensated buyerB itemsInsertFails 50 sampleCheckout "insert rejected"
      (by decide) rfl rfl).2.2.1,
   by decide⟩

/-- C9: with a valid form, when the order insert fails, `handleSubmit` sends that one
request and nothing else (no `order_items` insert, no delete), shows the error of the
order insert, and leaves the store, the cart and the navigation as they were. -/
theorem C9_order_failure_aborts (user : Identity) (f : Faults) (now : Int)
    (s : CheckoutState) (orderError : String)
    (hvalid : (validateForm s.formData).1 = true)
    (hins : f.ordersInsert = some orderError) :
    (handleSubmit user f now s).requests = s.requests ++
      [StoreOp.insertOrder
        { user_id := user.id, total_price := getCartTotal s.cartItems, status := "confirmed",
          customer_details := s.formData }] ∧
    (handleSubmit user f now s).alerts = s.alerts ++ ["Error creating order: " ++ orderError] ∧
    (handleSubmit user f now s).db = s.db ∧
    (handleSubmit user f now s).cartItems = s.cartItems ∧
    (handleSubmit user f now s).navigation = s.navigation ∧
    (handleSubmit user f now s).processing = false := by
  have hv : ¬ ((validateForm s.formData).1 = false) := by rw [hvalid]; decide
  simp [handleSubmit, hv, insertOrder, hins]

/-- Witness of C9 on the sample checkout. -/
theorem C9_order_failure_aborts_witness :
    ((validateForm sampleCheckout.formData).1 = true ∧
      orderInsertFails.ordersInsert = some "insert rejected") ∧
    (handleSubmit buyerB orderInsertFails 50 sampleCheckout).requests =
      sampleCheckout.requests ++
      [StoreOp.insertOrder
        { user_id := buyerB.id, total_price := getCartTotal sampleCheckout.cartItems,
          status := "confirmed", customer_details := sampleCheckout.formData }] ∧
    (handleSubmit buyerB orderInsertFails 50 sampleCheckout).alerts =
      sampleCheckout.alerts ++ ["Error creating order: " ++ "insert rejected"] ∧
    (handleSubmit buyerB orderInsertFails 50 sampleCheckout).db = sampleCheckout.db ∧
    (handleSubmit buyerB orderInsertFails 50 sampleCheckout).cartItems =
      sampleCheckout.cartItems ∧
    (handleSubmit buyerB orderInsertFails 50 sampleCheckout).navigation =
      sampleCheckout.navigation ∧
    (handleSubmit buyerB orderInsertFails 50 sampleCheckout).processing = false :=
  ⟨⟨by decide, rfl⟩,
   C9_order_failure_aborts buyerB orderInsertFails 50 sampleCheckout "insert rejected"
     (by decide) rfl⟩

/-- C10: with a valid form, `handleSubmit` sends exactly one order insert, first of all
its requests, and the row it carries has `user_id` equal to the buyer's id, `status`
`confirmed`, `total_price` equal to `getCartTotal` of the cart (which is not the 1.23-fold
figure of the cart summary unless the total is zero) and `customer_details` equal to the
form; when the insert succeeds the store receives a row with these values. -/
theorem C10_order_row_fields (user : Identity) (f : Faults) (now : Int) (s : CheckoutState)
    (hvalid : (validateForm s.formData).1 = true) :
    ∃ (row : OrderInsert) (rest : List StoreOp),
      (handleSubmit user f now s).requests = s.requests ++ StoreOp.insertOrder row :: rest ∧
      (∀ op ∈ rest, ∀ other : OrderInsert, op ≠ StoreOp.insertOrder other) ∧
      row.user_id = user.id ∧ row.status = "confirmed" ∧
      row.total_price = getCartTotal s.cartItems ∧
      (getCartTotal s.cartItems ≠ 0 → 100 * row.total_price ≠ 123 * getCartTotal s.cartItems) ∧
      row.customer_details = s.formData ∧
      (f.ordersInsert = Option.none →
        (insertOrder s.db f now row).2.orders = s.db.orders ++
          [{ id := freshId (s.db.orders.map (fun o => o.id)), user_id := user.id,
             status := "confirmed", total_price := getCartTotal s.cartItems,
             customer_details := s.formData, created_at := now }]) := by
  have hv : ¬ ((validateForm s.formData).1 = false) := by rw [hvalid]; decide
  have hfee : getCartTotal s.cartItems ≠ 0 →
      100 * getCartTotal s.cartItems ≠ 123 * getCartTotal s.cartItems := by
    intro h0 h; apply h0; omega
  cases hins : f.ordersInsert with
  | some orderError =>
    refine ⟨({ user_id := user.id, total_price := getCartTotal s.cartItems,
                     status := "confirmed", customer_details := s.formData } : OrderInsert), [], ?_, by simp, rfl, rfl, rfl, hfee, rfl, by simp⟩
    simp [handleSubmit, hv, insertOrder, hins]
  | none =>
    cases hitems : f.orderItemsInsert with
    | some itemsError =>
      refine ⟨({ user_id := user.id, total_price := getCartTotal s.cartItems,
                     status := "confirmed", customer_details := s.formData } : OrderInsert),
        [StoreOp.insertOrderItems (s.cartItems.map (fun item =>
          ({ order_id := freshId (s.db.orders.map (fun o => o.id)), event_id := item.id,
             quantity := item.quantity, price := item.price } : OrderItemInsert))),
         StoreOp.deleteOrder (freshId (s.db.orders.map (fun o => o.id)))],
        ?_, ?_, rfl, rfl, rfl, hfee, rfl, ?_⟩
      · simp [handleSubmit, hv, insertOrder, insertOrderItems, hins, hitems]
      · simp
      · intro _; simp [insertOrder, hins]
    | none =>
      refine ⟨({ user_id := user.id, total_price := getCartTotal s.cartItems,
                     status := "confirmed", customer_details := s.formData } : OrderInsert),
        [StoreOp.insertOrderItems (s.cartItems.map (fun item =>
          ({ order_id := freshId (s.db.orders.map (fun o => o.id)), event_id := item.id,
             quantity := item.quantity, price := item.price } : OrderItemInsert)))],
        ?_, ?_, rfl, rfl, rfl, hfee, rfl, ?_⟩
      · simp [handleSubmit, hv, insertOrder, insertOrderItems, hins, hitems]
      · simp
      · intro _; simp [insertOrder, hins]

/-- Witness of C10 on the sample checkout: the row carries buyer 7 and the total 13000. -/
theorem C10_order_row_fields_witness :
    (validateForm sampleCheckout.formData).1 = true ∧
    ∃ (row : OrderInsert) (rest : List StoreOp),
      (handleSubmit buyerB Faults.none 50 sampleCheckout).requests =
        sampleCheckout.requests ++ StoreOp.insertOrder row :: rest ∧
      row.user_id = 7 ∧ row.status = "confirmed" ∧ row.total_price = 13000 ∧
      row.customer_details = sampleForm := by
  refine ⟨by decide, ?_⟩
  obtain ⟨row, rest, h1, _, h3, h4, h5, _, h8, _⟩ :=
    C10_order_row_fields buyerB Faults.none 50 sampleCheckout (by decide)
  exact ⟨row, rest, h1, h3, h4, h5.trans (by decide), h8⟩

/-! ### Checkout: batch, totals, validation, guards of the page -/

/-- The run-to-completion `handleSubmit` is the step model driven to its end. -/
theorem handleSubmit_eq_settle (user : Identity) (f : Faults) (now : Int) (s : CheckoutState) :
    handleSubmitSettle f now 3 (handleSubmitStart user s) = handleSubmit user f now s := by
  by_cases hv : (validateForm s.formData).1 = false
  · simp [handleSubmitStart, handleSubmit, hv, handleSubmitSettle]
  · cases hins : f.ordersInsert with
    | some e =>
      simp [handleSubmitStart, handleSubmit, hv, handleSubmitSettle, handleSubmitResume,
        insertOrder, hins]
    | none =>
      cases hitems : f.orderItemsInsert with
      | some e =>
        simp [handleSubmitStart, handleSubmit, hv, handleSubmitSettle, handleSubmitResume,
          insertOrder, insertOrderItems, hins, hitems]
      | none =>
        simp [handleSubmitStart, handleSubmit, hv, handleSubmitSettle, handleSubmitResume,
          insertOrder, insertOrderItems, hins, hitems]

theorem created_lines_toInsert (rows : List OrderItemInsert) :
    ∀ base : Nat,
      ((rows.enumFrom base).map (fun ir =>
        ({ id := ir.1, order_id := ir.2.order_id, event_id := ir.2.event_id,
           quantity := ir.2.quantity, price := ir.2.price } : OrderItemRow))).map
        OrderItemRow.toInsert = rows := by
  induction rows with
  | nil => intro base; rfl
  | cons r rs ih =>
    intro base
    simp only [List.enumFrom_cons, List.map_cons, List.cons.injEq]
    exact ⟨rfl, ih (base + 1)⟩

theorem storedTotal_eq_batchTotal (lines : List OrderItemRow) :
    storedTotal lines = batchTotal (lines.map OrderItemRow.toInsert) := by
  simp [storedTotal, batchTotal, List.map_map, Function.comp_def, OrderItemRow.toInsert]

theorem batchTotal_cart (cartItems : List CartItem) (orderId : Nat) :
    batchTotal (cartItems.map (fun item =>
      ({ order_id := orderId, event_id := item.id, quantity := item.quantity,
         price := item.price } : OrderItemInsert))) = getCartTotal cartItems := by
  simp [batchTotal, getCartTotal, List.map_map, Function.comp_def]

/-- C11: with a valid form and a successful order insert, `handleSubmit` sends one
`order_items` batch, right after the order insert; the batch is the cart mapped line by
line, so it has one row per cart line in cart order, and the row of a cart line carries
the id of the created order, the line's item id, its quantity and the price held in the
cart line.  When the batch insert succeeds these rows are what the store receives. -/
theorem C11_order_items_batch (user : Identity) (f : Faults) (now : Int) (s : CheckoutState)
    (hvalid : (validateForm s.formData).1 = true) (hins : f.ordersInsert = Option.none) :
    ∃ (created : OrderRow) (rows : List OrderItemInsert) (rest : List StoreOp),
      (insertOrder s.db f now
        { user_id := user.id, total_price := getCartTotal s.cartItems, status := "confirmed",
          customer_details := s.formData }).1 = Except.ok created ∧
      (handleSubmit user f now s).requests = s.requests ++
        StoreOp.insertOrder
          { user_id := user.id, total_price := getCartTotal s.cartItems, status := "confirmed",
            customer_details := s.formData } ::
        StoreOp.insertOrderItems rows :: rest ∧
      (∀ op ∈ rest, ∀ other : List OrderItemInsert, op ≠ StoreOp.insertOrderItems other) ∧
      rows.length = s.cartItems.length ∧
      (∀ i : Nat, rows[i]? = (s.cartItems[i]?).map (fun item =>
        ({ order_id := created.id, event_id := item.id, quantity := item.quantity,
           price := item.price } : OrderItemInsert))) ∧
      (f.orderItemsInsert = Option.none →
        ∃ lines : List OrderItemRow,
          (handleSubmit user f now s).db.order_items = s.db.order_items ++ lines ∧
          lines.map OrderItemRow.toInsert = rows) := by
  have hv : ¬ ((validateForm s.formData).1 = false) := by rw [hvalid]; decide
  refine ⟨{ id := freshId (s.db.orders.map (fun o => o.id)), user_id := user.id,
            status := "confirmed", total_price := getCartTotal s.cartItems,
            customer_details := s.formData, created_at := now },
          s.cartItems.map (fun item =>
            ({ order_id := freshId (s.db.orders.map (fun o => o.id)), event_id := item.id,
               quantity := item.quantity, price := item.price } : OrderItemInsert)),
          (match f.orderItemsInsert with
           | some _ => [StoreOp.deleteOrder (freshId (s.db.orders.map (fun o => o.id)))]
           | Option.none => []), ?_, ?_, ?_, ?_, ?_, ?_⟩
  · simp [insertOrder, hins]
  · cases hitems : f.orderItemsInsert with
    | some e => simp [handleSubmit, hv, insertOrder, insertOrderItems, hins, hitems]
    | none => simp [handleSubmit, hv, insertOrder, insertOrderItems, hins, hitems]
  · cases hitems : f.orderItemsInsert with
    | some e => simp
    | none => simp
  · simp
  · intro i
    simp [List.getElem?_map]
  · intro hitems
    refine ⟨_, ?_, created_lines_toInsert _ (freshId (s.db.order_items.map (fun r => r.id)))⟩
    simp [handleSubmit, hv, insertOrder, insertOrderItems, hins, hitems]


/-- Witness of C11 on the sample checkout: two cart lines give two rows for order 102. -/
theorem C11_order_items_batch_witness :
    ((validateForm sampleCheckout.formData).1 = true ∧
      Faults.none.ordersInsert = Option.none) ∧
    (∃ (created : OrderRow) (rows : List OrderItemInsert),
      StoreOp.insertOrderItems rows ∈ (handleSubmit buyerB Faults.none 50 sampleCheckout).requests ∧
      rows.length = sampleCheckout.cartItems.length ∧
      ∀ i : Nat, rows[i]? = (sampleCheckout.cartItems[i]?).map (fun item =>
        ({ order_id := created.id, event_id := item.id, quantity := item.quantity,
           price := item.price } : OrderItemInsert))) ∧
    (handleSubmit buyerB Faults.none 50 sampleCheckout).requests.getLast? =
      some (StoreOp.insertOrderItems
        [{ order_id := 102, event_id := 1, quantity := 2, price := 5000 },
         { order_id := 102, event_id := 2, quantity := 1, price := 3000 }]) := by
  refine ⟨⟨by decide, rfl⟩, ?_, by decide⟩
  obtain ⟨created, rows, rest, _, hreq, _, hlen, hrows, _⟩ :=
    C11_order_items_batch buyerB Faults.none 50 sampleCheckout (by decide) rfl
  refine ⟨created, rows, ?_, hlen, hrows⟩
  rw [hreq]
  simp

/-- C12: after a successful checkout (valid form, both inserts succeed), where the cart
total is the sum of `price × quantity` over the cart lines, the rows inserted into
`order_items` for the new order sum, by `price × quantity`, to the `total_price` stored on
that order: this holds for the batch sent and for the lines the store holds afterwards. -/
theorem C12_lines_sum_to_total (user : Identity) (f : Faults) (now : Int) (s : CheckoutState)
    (hvalid : (validateForm s.formData).1 = true) (hins : f.ordersInsert = Option.none)
    (hitems : f.orderItemsInsert = Option.none) :
    getCartTotal s.cartItems = (s.cartItems.map (fun item => item.price * item.quantity)).sum ∧
    ∃ (created : OrderRow) (rows : List OrderItemInsert) (lines : List OrderItemRow),
      (handleSubmit user f now s).db.orders = s.db.orders ++ [created] ∧
      created.id ∉ s.db.orders.map (fun o => o.id) ∧
      (handleSubmit user f now s).navigation =
        some { path := "/orders", orderPlaced := true, orderId := created.id } ∧
      (handleSubmit user f now s).requests = s.requests ++
        [StoreOp.insertOrder
          { user_id := user.id, total_price := created.total_price, status := "confirmed",
            customer_details := s.formData },
         StoreOp.insertOrderItems rows] ∧
      (handleSubmit user f now s).db.order_items = s.db.order_items ++ lines ∧
      lines.map OrderItemRow.toInsert = rows ∧
      (∀ l ∈ lines, l.order_id = created.id) ∧
      batchTotal rows = created.total_price ∧
      storedTotal lines = created.total_price := by
  have hv : ¬ ((validateForm s.formData).1 = false) := by rw [hvalid]; decide
  have hlines := created_lines_toInsert
    (s.cartItems.map (fun item =>
      ({ order_id := freshId (s.db.orders.map (fun o => o.id)), event_id := item.id,
         quantity := item.quantity, price := item.price } : OrderItemInsert)))
    (freshId (s.db.order_items.map (fun r => r.id)))
  refine ⟨rfl, (⟨freshId (s.db.orders.map (fun o => o.id)), user.id, "confirmed",
            getCartTotal s.cartItems, s.formData, now⟩ : OrderRow),
          s.cartItems.map (fun item =>
            ({ order_id := freshId (s.db.orders.map (fun o => o.id)), event_id := item.id,
               quantity := item.quantity, price := item.price } : OrderItemInsert)),
          _, ?_, freshId_not_mem _, ?_, ?_, ?_, hlines, ?_, batchTotal_cart _ _, ?_⟩
  · simp [handleSubmit, hv, insertOrder, insertOrderItems, hins, hitems]
  · simp [handleSubmit, hv, insertOrder, insertOrderItems, hins, hitems]
  · simp [handleSubmit, hv, insertOrder, insertOrderItems, hins, hitems]
  · simp [handleSubmit, hv, insertOrder, insertOrderItems, hins, hitems]
  · intro l hl
    have h2 : l.toInsert ∈ s.cartItems.map (fun item =>
      ({ order_id := freshId (s.db.orders.map (fun o => o.id)), event_id := item.id,
         quantity := item.quantity, price := item.price } : OrderItemInsert)) := by
      rw [← hlines]
      exact List.mem_map_of_mem _ hl
    obtain ⟨item, _, hitem⟩ := List.mem_map.mp h2
    have : l.toInsert.order_id = freshId (s.db.orders.map (fun o => o.id)) := by
      rw [← hitem]
    exact this
  · rw [storedTotal_eq_batchTotal, hlines]
    exact batchTotal_cart _ _

/-- Witness of C12 on the sample checkout: the two stored lines of order 102 sum to its
stored total 13000. -/
theorem C12_lines_sum_to_total_witness :
    ((validateForm sampleCheckout.formData).1 = true ∧
      Faults.none.ordersInsert = Option.none ∧ Faults.none.orderItemsInsert = Option.none) ∧
    (∃ (created : OrderRow) (lines : List OrderItemRow),
      (handleSubmit buyerB Faults.none 50 sampleCheckout).db.orders =
        sampleCheckout.db.orders ++ [created] ∧
      (handleSubmit buyerB Faults.none 50 sampleCheckout).db.order_items =
        sampleCheckout.db.order_items ++ lines ∧
      storedTotal lines = created.total_price) ∧
    ((handleSubmit buyerB Faults.none 50 sampleCheckout).db.orders.map
      (fun o => (o.id, o.total_price))).getLast? = some (102, 13000) := by
  refine ⟨⟨by decide, rfl, rfl⟩, ?_, by decide⟩
  obtain ⟨_, created, rows, lines, h1, _, _, _, h5, _, _, _, h9⟩ :=
    C12_lines_sum_to_total buyerB Faults.none 50 sampleCheckout (by decide) rfl rfl
  exact ⟨created, lines, h1, h5, h9⟩

/-- C13: `handleSubmit` calls `clearCart` at most once, and it calls it, empties the cart
and navigates with the id of the created order exactly when the form is valid and both
the order insert and the `order_items` insert succeed; in every other case (validation
failure, order-insert failure, `order_items`-insert failure) the cart is not cleared and
there is no navigation. -/
theorem C13_cart_cleared_iff_success (user : Identity) (f : Faults) (now : Int)
    (s : CheckoutState) :
    (((validateForm s.formData).1 = true ∧ f.ordersInsert = Option.none ∧
        f.orderItemsInsert = Option.none) →
      (handleSubmit user f now s).cartClears = s.cartClears + 1 ∧
      (handleSubmit user f now s).cartItems = [] ∧
      (handleSubmit user f now s).navigation =
        some { path := "/orders", orderPlaced := true,
               orderId := freshId (s.db.orders.map (fun o => o.id)) } ∧
      ∃ created ∈ (handleSubmit user f now s).db.orders,
        created.id = freshId (s.db.orders.map (fun o => o.id)) ∧
        created.id ∉ s.db.orders.map (fun o => o.id)) ∧
    (¬ ((validateForm s.formData).1 = true ∧ f.ordersInsert = Option.none ∧
        f.orderItemsInsert = Option.none) →
      (handleSubmit user f now s).cartClears = s.cartClears ∧
      (handleSubmit user f now s).cartItems = s.cartItems ∧
      (handleSubmit user f now s).navigation = s.navigation) ∧
    ((handleSubmit user f now s).cartClears = s.cartClears + 1 ↔
      ((validateForm s.formData).1 = true ∧ f.ordersInsert = Option.none ∧
        f.orderItemsInsert = Option.none)) ∧
    (handleSubmit user f now s).cartClears ≤ s.cartClears + 1 := by
  by_cases hv : (validateForm s.formData).1 = false
  · have hnv : ¬ ((validateForm s.formData).1 = true) := by rw [hv]; decide
    simp [handleSubmit, hv]
  · have hvt : (validateForm s.formData).1 = true := by simpa using hv
    cases hins : f.ordersInsert with
    | some e => simp [handleSubmit, hv, insertOrder, hins]
    | none =>
      cases hitems : f.orderItemsInsert with
      | some e => simp [handleSubmit, hv, insertOrder, insertOrderItems, hins, hitems]
      | none =>
        have hfresh := freshId_not_mem (s.db.orders.map (fun o => o.id))
        simp only [List.mem_map, not_exists, not_and] at hfresh
        simp [handleSubmit, hv, hvt, insertOrder, insertOrderItems, hins, hitems, clearCart]
        exact ⟨_, Or.inr rfl, rfl, hfresh⟩

/-- Witness of C13 on the sample checkout: one call of `clearCart` on success, none when
the `order_items` insert fails. -/
theorem C13_cart_cleared_iff_success_witness :
    ((handleSubmit buyerB Faults.none 50 sampleCheckout).cartClears =
        sampleCheckout.cartClears + 1 ∧
      (handleSubmit buyerB Faults.none 50 sampleCheckout).cartItems = [] ∧
      (handleSubmit buyerB Faults.none 50 sampleCheckout).navigation =
        some { path := "/orders", orderPlaced := true, orderId := 102 }) ∧
    ((handleSubmit buyerB itemsInsertFails 50 sampleCheckout).cartClears =
        sampleCheckout.cartClears ∧
      (handleSubmit buyerB itemsInsertFails 50 sampleCheckout).cartItems =
        sampleCheckout.cartItems ∧
      (handleSubmit buyerB itemsInsertFails 50 sampleCheckout).navigation =
        sampleCheckout.navigation) := by
  obtain ⟨h1, h2, h3, _⟩ :=
    (C13_cart_cleared_iff_success buyerB Faults.none 50 sampleCheckout).1
      ⟨by decide, rfl, rfl⟩
  exact ⟨⟨h1, h2, h3⟩,
    (C13_cart_cleared_iff_success buyerB itemsInsertFails 50 sampleCheckout).2.1
      (by decide)⟩

theorem dropWhile_head_not {α : Type} (p : α → Bool) (l : List α) :
    ∀ x ∈ (l.dropWhile p).head?, p x = false := by
  induction l with
  | nil => intro x hx; simp at hx
  | cons a as ih =>
    intro x hx
    by_cases h : p a = true
    · rw [List.dropWhile_cons_of_pos h] at hx
      exact ih x hx
    · rw [List.dropWhile_cons_of_neg h] at hx
      simp only [List.head?_cons, Option.mem_def, Option.some.injEq] at hx
      subst hx
      simpa using h

theorem jsTrim_eq_nil_iff (cs : List Char) :
    jsTrim cs = [] ↔ ∀ c ∈ cs, isJsWhitespace c = true := by
  unfold jsTrim
  rw [List.reverse_eq_nil_iff, List.dropWhile_eq_nil_iff]
  constructor
  · intro h
    rw [← List.dropWhile_eq_nil_iff]
    cases hd : cs.dropWhile isJsWhitespace with
    | nil => rfl
    | cons a as =>
      exfalso
      have h1 := dropWhile_head_not isJsWhitespace cs a (by rw [hd]; simp)
      have h2 := h a (by rw [hd]; simp)
      rw [h1] at h2
      exact Bool.noConfusion h2
  · intro h
    have : cs.dropWhile isJsWhitespace = [] := List.dropWhile_eq_nil_iff.mpr h
    rw [this]
    simp

theorem blankAfterTrim_iff (value : String) :
    blankAfterTrim value = true ↔ ¬ nonBlank value := by
  unfold blankAfterTrim nonBlank
  rw [List.isEmpty_iff, jsTrim_eq_nil_iff]
  simp

theorem isAsciiDigit_iff (c : Char) : isAsciiDigit c = true ↔ ('0' ≤ c ∧ c ≤ '9') := by
  unfold isAsciiDigit
  rw [Bool.and_eq_true, decide_eq_true_eq, decide_eq_true_eq, Char.le_def, Char.le_def]
  exact Iff.rfl

theorem phonePattern_iff (value : String) : phonePattern value = true ↔ tenDigitMobile value := by
  unfold phonePattern tenDigitMobile
  cases h : value.toList with
  | nil => simp
  | cons c rest =>
    simp only [Bool.and_eq_true, decide_eq_true_eq, List.all_eq_true, isAsciiDigit_iff,
      List.length_cons, List.mem_cons, forall_eq_or_imp, List.head?_cons, Option.some.injEq,
      exists_eq_left']
    have h6 : (54 ≤ c.toNat ∧ c.toNat ≤ 57) ↔ ('6' ≤ c ∧ c ≤ '9') := by
      rw [Char.le_def, Char.le_def]
      exact Iff.rfl
    have h0 : '6' ≤ c → '0' ≤ c := by
      intro hc
      have h06 : '0' ≤ '6' := by decide
      exact le_trans h06 hc
    constructor
    · rintro ⟨⟨hc, hlen⟩, hall⟩
      have hc2 := h6.mp hc
      exact ⟨by omega, ⟨⟨h0 hc2.1, hc2.2⟩, hall⟩, hc2⟩
    · rintro ⟨hlen, ⟨_, hall⟩, hc⟩
      exact ⟨⟨h6.mpr hc, by omega⟩, hall⟩

theorem pincodePattern_iff (value : String) :
    pincodePattern value = true ↔ sixDigitCode value := by
  unfold pincodePattern sixDigitCode
  simp only [Bool.and_eq_true, decide_eq_true_eq, List.all_eq_true, isAsciiDigit_iff]

theorem mem_setError (errs : List (String × String)) (field message : String)
    (p : String × String) :
    p ∈ setError errs field message ↔ p = (field, message) ∨ (p.1 ≠ field ∧ p ∈ errs) := by
  unfold setError
  by_cases hk : errs.any (fun kv => kv.1 = field) = true
  · rw [if_pos hk]
    simp only [List.mem_map]
    constructor
    · rintro ⟨q, hq, rfl⟩
      by_cases hq1 : q.1 = field
      · left; simp [hq1]
      · right; simp [hq1, hq]
    · rintro (rfl | ⟨hne, hp⟩)
      · simp only [List.any_eq_true, decide_eq_true_eq] at hk
        obtain ⟨q, hq, hq1⟩ := hk
        exact ⟨q, hq, by simp [hq1]⟩
      · exact ⟨p, hp, by simp [hne]⟩
  · rw [if_neg hk]
    simp only [List.any_eq_true, decide_eq_true_eq, not_exists, not_and] at hk
    simp only [List.mem_append, List.mem_singleton]
    constructor
    · rintro (hp | rfl)
      · exact Or.inr ⟨hk p hp, hp⟩
      · exact Or.inl rfl
    · rintro (rfl | ⟨_, hp⟩)
      · exact Or.inr rfl
      · exact Or.inl hp

/-- The keys of the object after an assignment. -/
theorem hasKey_setError (errs : List (String × String)) (field message key : String) :
    (∃ msg, (key, msg) ∈ setError errs field message) ↔
      key = field ∨ ∃ msg, (key, msg) ∈ errs := by
  constructor
  · rintro ⟨msg, h⟩
    rcases (mem_setError errs field message (key, msg)).mp h with h | ⟨_, h⟩
    · exact Or.inl (congrArg Prod.fst h)
    · exact Or.inr ⟨msg, h⟩
  · rintro (rfl | ⟨msg, h⟩)
    · exact ⟨message, (mem_setError errs key message (key, message)).mpr (Or.inl rfl)⟩
    · by_cases hk : key = field
      · subst hk
        exact ⟨message, (mem_setError errs key message (key, message)).mpr (Or.inl rfl)⟩
      · exact ⟨msg, (mem_setError errs field message (key, msg)).mpr (Or.inr ⟨hk, h⟩)⟩

/-- The keys set by the loop over the required fields. -/
theorem hasKey_required_loop (formData : FormData) (key : String) (fields : List String) :
    ∀ init : List (String × String),
      (∃ msg, (key, msg) ∈ fields.foldl
        (fun newErrors field =>
          if blankAfterTrim (formData.get field) then
            setError newErrors field "This field is required"
          else newErrors) init) ↔
      ((∃ msg, (key, msg) ∈ init) ∨
        (key ∈ fields ∧ blankAfterTrim (formData.get key) = true)) := by
  induction fields with
  | nil => intro init; simp
  | cons fld rest ih =>
    intro init
    rw [List.foldl_cons, ih]
    by_cases hb : blankAfterTrim (formData.get fld) = true
    · rw [if_pos hb, hasKey_setError]
      constructor
      · rintro ((rfl | h) | ⟨h1, h2⟩)
        · exact Or.inr ⟨List.mem_cons_self _ _, hb⟩
        · exact Or.inl h
        · exact Or.inr ⟨List.mem_cons_of_mem _ h1, h2⟩
      · rintro (h | ⟨h1, h2⟩)
        · exact Or.inl (Or.inr h)
        · rcases List.mem_cons.mp h1 with rfl | h1
          · exact Or.inl (Or.inl rfl)
          · exact Or.inr ⟨h1, h2⟩
    · rw [if_neg hb]
      constructor
      · rintro (h | ⟨h1, h2⟩)
        · exact Or.inl h
        · exact Or.inr ⟨List.mem_cons_of_mem _ h1, h2⟩
      · rintro (h | ⟨h1, h2⟩)
        · exact Or.inl h
        · rcases List.mem_cons.mp h1 with rfl | h1
          · exact absurd h2 hb
          · exact Or.inr ⟨h1, h2⟩

/-- The fields with an entry in the errors of `validateForm` are the failing fields. -/
theorem hasKey_validateForm (formData : FormData) (key : String) :
    (∃ msg, (key, msg) ∈ (validateForm formData).2) ↔ fieldFails formData key := by
  have hphone : formData.get "phone" = formData.phone := by simp [FormData.get]
  have hpin : formData.get "pincode" = formData.pincode := by simp [FormData.get]
  have hempty : ∀ v : String, v = "" → ¬ nonBlank v := by
    intro v hv
    subst hv
    simp [nonBlank]
  have hloop := hasKey_required_loop formData key requiredFields []
  simp only [List.not_mem_nil, exists_false, false_or, blankAfterTrim_iff] at hloop
  unfold validateForm
  simp only
  unfold fieldFails
  by_cases hp : formData.phone ≠ "" ∧ ¬ phonePattern formData.phone = true
  · by_cases hq : formData.pincode ≠ "" ∧ ¬ pincodePattern formData.pincode = true
    · rw [if_pos hp, if_pos hq, hasKey_setError, hasKey_setError, hloop]
      have hp2 : ¬ tenDigitMobile formData.phone := fun h => hp.2 ((phonePattern_iff _).mpr h)
      have hq2 : ¬ sixDigitCode formData.pincode := fun h => hq.2 ((pincodePattern_iff _).mpr h)
      constructor
      · rintro (rfl | rfl | ⟨h1, h2⟩)
        · exact ⟨by decide, Or.inr (Or.inr ⟨rfl, hq2⟩)⟩
        · exact ⟨by decide, Or.inr (Or.inl ⟨rfl, hp2⟩)⟩
        · exact ⟨h1, Or.inl h2⟩
      · rintro ⟨h1, h2 | ⟨rfl, _⟩ | ⟨rfl, _⟩⟩
        · exact Or.inr (Or.inr ⟨h1, h2⟩)
        · exact Or.inr (Or.inl rfl)
        · exact Or.inl rfl
    · rw [if_pos hp, if_neg hq, hasKey_setError, hloop]
      have hp2 : ¬ tenDigitMobile formData.phone := fun h => hp.2 ((phonePattern_iff _).mpr h)
      constructor
      · rintro (rfl | ⟨h1, h2⟩)
        · exact ⟨by decide, Or.inr (Or.inl ⟨rfl, hp2⟩)⟩
        · exact ⟨h1, Or.inl h2⟩
      · rintro ⟨h1, h2 | ⟨rfl, _⟩ | ⟨rfl, h3⟩⟩
        · exact Or.inr ⟨h1, h2⟩
        · exact Or.inl rfl
        · right
          refine ⟨h1, ?_⟩
          rw [hpin]
          by_cases he : formData.pincode = ""
          · exact hempty _ he
          · exact absurd ((pincodePattern_iff _).mp (not_not.mp (fun hn => hq ⟨he, hn⟩))) h3
  · by_cases hq : formData.pincode ≠ "" ∧ ¬ pincodePattern formData.pincode = true
    · rw [if_neg hp, if_pos hq, hasKey_setError, hloop]
      have hq2 : ¬ sixDigitCode formData.pincode := fun h => hq.2 ((pincodePattern_iff _).mpr h)
      constructor
      · rintro (rfl | ⟨h1, h2⟩)
        · exact ⟨by decide, Or.inr (Or.inr ⟨rfl, hq2⟩)⟩
        · exact ⟨h1, Or.inl h2⟩
      · rintro ⟨h1, h2 | ⟨rfl, h3⟩ | ⟨rfl, _⟩⟩
        · exact Or.inr ⟨h1, h2⟩
        · right
          refine ⟨h1, ?_⟩
          rw [hphone]
          by_cases he : formData.phone = ""
          · exact hempty _ he
          · exact absurd ((phonePattern_iff _).mp (not_not.mp (fun hn => hp ⟨he, hn⟩))) h3
        · exact Or.inl rfl
    · rw [if_neg hp, if_neg hq, hloop]
      constructor
      · rintro ⟨h1, h2⟩
        exact ⟨h1, Or.inl h2⟩
      · rintro ⟨h1, h2 | ⟨rfl, h3⟩ | ⟨rfl, h3⟩⟩
        · exact ⟨h1, h2⟩
        · refine ⟨h1, ?_⟩
          rw [hphone]
          by_cases he : formData.phone = ""
          · exact hempty _ he
          · exact absurd ((phonePattern_iff _).mp (not_not.mp (fun hn => hp ⟨he, hn⟩))) h3
        · refine ⟨h1, ?_⟩
          rw [hpin]
          by_cases he : formData.pincode = ""
          · exact hempty _ he
          · exact absurd ((pincodePattern_iff _).mp (not_not.mp (fun hn => hq ⟨he, hn⟩))) h3

theorem validateForm_fst_iff (formData : FormData) :
    (validateForm formData).1 = true ↔ (validateForm formData).2 = [] := by
  have h : (validateForm formData).1 = decide ((validateForm formData).2.length = 0) := rfl
  rw [h, decide_eq_true_eq, List.length_eq_zero]

theorem validateForm_snd_nil_iff (formData : FormData) :
    (validateForm formData).2 = [] ↔ ∀ key, ¬ fieldFails formData key := by
  constructor
  · intro h key hk
    obtain ⟨msg, hm⟩ := (hasKey_validateForm formData key).mpr hk
    rw [h] at hm
    exact List.not_mem_nil _ hm
  · intro h
    apply List.eq_nil_iff_forall_not_mem.mpr
    rintro ⟨key, msg⟩ hm
    exact h key ((hasKey_validateForm formData key).mp ⟨msg, hm⟩)

theorem no_field_fails_iff (formData : FormData) :
    (∀ key, ¬ fieldFails formData key) ↔
      (nonBlank formData.name ∧ nonBlank formData.email ∧ nonBlank formData.phone ∧
       nonBlank formData.address ∧ nonBlank formData.city ∧ nonBlank formData.state ∧
       nonBlank formData.pincode ∧ tenDigitMobile formData.phone ∧
       sixDigitCode formData.pincode) := by
  constructor
  · intro h
    have hb : ∀ key ∈ requiredFields, nonBlank (formData.get key) := by
      intro key hk
      by_contra hn
      exact h key ⟨hk, Or.inl hn⟩
    refine ⟨hb "name" (by decide), hb "email" (by decide), hb "phone" (by decide),
      hb "address" (by decide), hb "city" (by decide), hb "state" (by decide),
      hb "pincode" (by decide), ?_, ?_⟩
    · by_contra hn
      exact h "phone" ⟨by decide, Or.inr (Or.inl ⟨rfl, hn⟩)⟩
    · by_contra hn
      exact h "pincode" ⟨by decide, Or.inr (Or.inr ⟨rfl, hn⟩)⟩
  · rintro ⟨h1, h2, h3, h4, h5, h6, h7, h8, h9⟩ key ⟨hk, hf⟩
    rcases hf with hf | ⟨_, hf⟩ | ⟨_, hf⟩
    · simp only [requiredFields, List.mem_cons, List.mem_singleton, List.not_mem_nil,
        or_false] at hk
      rcases hk with rfl | rfl | rfl | rfl | rfl | rfl | rfl
      · exact hf h1
      · exact hf h2
      · exact hf h3
      · exact hf h4
      · exact hf h5
      · exact hf h6
      · exact hf h7
    · exact hf h8
    · exact hf h9

/-- C14: `validateForm` returns `true`, and then records no error, exactly when each of
name, email, phone, address, city, state and pincode has a character that is not
whitespace (is non-empty after `trim()`), the phone is exactly ten digits with the first
one in 6..9, and the pincode is exactly six digits. -/
theorem C14_validateForm_accepts_iff (formData : FormData) :
    (((validateForm formData).1 = true ∧ (validateForm formData).2 = []) ↔
      (nonBlank formData.name ∧ nonBlank formData.email ∧ nonBlank formData.phone ∧
       nonBlank formData.address ∧ nonBlank formData.city ∧ nonBlank formData.state ∧
       nonBlank formData.pincode ∧ tenDigitMobile formData.phone ∧
       sixDigitCode formData.pincode)) ∧
    ((validateForm formData).1 = true ↔ (validateForm formData).2 = []) ∧
    (phonePattern formData.phone = true ↔ tenDigitMobile formData.phone) ∧
    (pincodePattern formData.pincode = true ↔ sixDigitCode formData.pincode) := by
  refine ⟨?_, validateForm_fst_iff formData, phonePattern_iff _, pincodePattern_iff _⟩
  rw [← no_field_fails_iff, ← validateForm_snd_nil_iff]
  constructor
  · exact fun h => h.2
  · exact fun h => ⟨(validateForm_fst_iff formData).mpr h, h⟩

/-- C15: when the form fails validation, `handleSubmit` sends no request to the store and
leaves the store, the cart and the navigation as they were, and the errors have an entry
for each failing field and for no other; a phone that is not a 10-digit mobile number
gets an entry on `phone`, a pincode that is not six digits gets an entry on `pincode`,
with the message of the pattern when the value is not empty. -/
theorem C15_invalid_form_no_write (user : Identity) (f : Faults) (now : Int)
    (s : CheckoutState) (hinvalid : (validateForm s.formData).1 = false) :
    (handleSubmit user f now s).requests = s.requests ∧
    (handleSubmit user f now s).db = s.db ∧
    (handleSubmit user f now s).cartItems = s.cartItems ∧
    (handleSubmit user f now s).cartClears = s.cartClears ∧
    (handleSubmit user f now s).navigation = s.navigation ∧
    (handleSubmit user f now s).alerts = s.alerts ∧
    (∃ field, fieldFails s.formData field) ∧
    (∀ field, fieldFails s.formData field ↔
      ∃ msg, (field, msg) ∈ (handleSubmit user f now s).errors) ∧
    (¬ tenDigitMobile s.formData.phone →
      ∃ msg, ("phone", msg) ∈ (handleSubmit user f now s).errors) ∧
    (¬ sixDigitCode s.formData.pincode →
      ∃ msg, ("pincode", msg) ∈ (handleSubmit user f now s).errors) ∧
    (s.formData.phone ≠ "" → ¬ tenDigitMobile s.formData.phone →
      ("phone", "Invalid 10-digit phone number") ∈ (handleSubmit user f now s).errors) ∧
    (s.formData.pincode ≠ "" → ¬ sixDigitCode s.formData.pincode →
      ("pincode", "Invalid 6-digit pincode") ∈ (handleSubmit user f now s).errors) := by
  have herr : (handleSubmit user f now s).errors = (validateForm s.formData).2 := by
    simp [handleSubmit, hinvalid]
  have hkeys : ∀ field, fieldFails s.formData field ↔
      ∃ msg, (field, msg) ∈ (handleSubmit user f now s).errors := by
    intro field
    rw [herr]
    exact (hasKey_validateForm s.formData field).symm
  refine ⟨by simp [handleSubmit, hinvalid], by simp [handleSubmit, hinvalid],
    by simp [handleSubmit, hinvalid], by simp [handleSubmit, hinvalid],
    by simp [handleSubmit, hinvalid], by simp [handleSubmit, hinvalid], ?_, hkeys, ?_, ?_, ?_, ?_⟩
  · by_contra hn
    have hall : ∀ key, ¬ fieldFails s.formData key := fun key hk => hn ⟨key, hk⟩
    have := (validateForm_fst_iff s.formData).mpr
      ((validateForm_snd_nil_iff s.formData).mpr hall)
    rw [hinvalid] at this
    exact Bool.noConfusion this
  · intro hn
    exact (hkeys "phone").mp ⟨by decide, Or.inr (Or.inl ⟨rfl, hn⟩)⟩
  · intro hn
    exact (hkeys "pincode").mp ⟨by decide, Or.inr (Or.inr ⟨rfl, hn⟩)⟩
  · intro hne hn
    rw [herr]
    have hp : s.formData.phone ≠ "" ∧ ¬ phonePattern s.formData.phone = true :=
      ⟨hne, fun h => hn ((phonePattern_iff _).mp h)⟩
    unfold validateForm
    simp only [if_pos hp]
    by_cases hq : s.formData.pincode ≠ "" ∧ ¬ pincodePattern s.formData.pincode = true
    · rw [if_pos hq, mem_setError]
      exact Or.inr ⟨by decide, (mem_setError _ _ _ _).mpr (Or.inl rfl)⟩
    · rw [if_neg hq]
      exact (mem_setError _ _ _ _).mpr (Or.inl rfl)
  · intro hne hn
    rw [herr]
    have hq : s.formData.pincode ≠ "" ∧ ¬ pincodePattern s.formData.pincode = true :=
      ⟨hne, fun h => hn ((pincodePattern_iff _).mp h)⟩
    unfold validateForm
    simp only [if_pos hq]
    exact (mem_setError _ _ _ _).mpr (Or.inl rfl)

/-- Witness of C15 on the sample checkout with phone `12345` and pincode `123`: nothing
is sent to the store, and both fields get their message. -/
theorem C15_invalid_form_no_write_witness :
    (validateForm badContactCheckout.formData).1 = false ∧
    (handleSubmit buyerB Faults.none 50 badContactCheckout).requests =
      badContactCheckout.requests ∧
    (handleSubmit buyerB Faults.none 50 badContactCheckout).db = badContactCheckout.db ∧
    (handleSubmit buyerB Faults.none 50 badContactCheckout).cartItems =
      badContactCheckout.cartItems ∧
    (handleSubmit buyerB Faults.none 50 badContactCheckout).errors =
      [("phone", "Invalid 10-digit phone number"), ("pincode", "Invalid 6-digit pincode")] := by
  obtain ⟨h1, h2, h3, _⟩ :=
    C15_invalid_form_no_write buyerB Faults.none 50 badContactCheckout (by decide)
  exact ⟨by decide, h1, h2, h3, by decide⟩

/-- Witness of C14: the sample form is accepted, so its phone is a 10-digit mobile
number and its pincode a 6-digit code. -/
theorem C14_validateForm_accepts_iff_witness :
    (validateForm sampleForm).1 = true ∧ nonBlank sampleForm.name ∧
    tenDigitMobile sampleForm.phone ∧ sixDigitCode sampleForm.pincode := by
  have h := (C14_validateForm_accepts_iff sampleForm).1.mp ⟨by decide, by decide⟩
  exact ⟨by decide, h.1, h.2.2.2.2.2.2.2.1, h.2.2.2.2.2.2.2.2⟩

/-- C16: with no line in the cart, `Checkout` renders the notice and no form, so for
every form, valid or not, every buyer and every answer of the store, a submit starts
nothing: the checkout operation sends no request (no order insert, no `order_items`
insert) and leaves the store and the whole state as they were. -/
theorem C16_empty_cart_no_write (user : Identity) (f : Faults) (now : Int)
    (s : CheckoutState) (hempty : s.cartItems = []) :
    Checkout s = CheckoutView.noItems ∧
    submitEvent user s = (s, Option.none) ∧
    checkoutOperation user f now s = s ∧
    (checkoutOperation user f now s).requests = s.requests ∧
    (checkoutOperation user f now s).db = s.db ∧
    orderInserts (checkoutOperation user f now s).requests = orderInserts s.requests := by
  have hview : Checkout s = CheckoutView.noItems := by simp [Checkout, hempty]
  have hev : submitEvent user s = (s, Option.none) := by simp [submitEvent, hview]
  have hop : checkoutOperation user f now s = s := by
    simp [checkoutOperation, hev, handleSubmitSettle]
  exact ⟨hview, hev, hop, by rw [hop], by rw [hop], by rw [hop]⟩

/-- Witness of C16: the sample checkout with an empty cart and a valid form. -/
theorem C16_empty_cart_no_write_witness :
    (emptyCartCheckout.cartItems = [] ∧ (validateForm emptyCartCheckout.formData).1 = true) ∧
    checkoutOperation buyerB Faults.none 50 emptyCartCheckout = emptyCartCheckout :=
  ⟨⟨rfl, by decide⟩,
   (C16_empty_cart_no_write buyerB Faults.none 50 emptyCartCheckout rfl).2.2.1⟩

/-- While a checkout is in flight, `processing` is true. -/
theorem InFlight.processing {user : Identity} {f : Faults} {now : Int} {s : CheckoutState}
    {p : Suspended} (h : InFlight user f now s p) : s.processing = true := by
  induction h with
  | started s0 s p hstart =>
    unfold submitEvent at hstart
    cases hview : Checkout s0 with
    | noItems => rw [hview] at hstart; simp at hstart
    | form submitDisabled label =>
      rw [hview] at hstart
      simp only at hstart
      by_cases hd : submitDisabled = true
      · rw [if_pos hd] at hstart; simp at hstart
      · rw [if_neg hd] at hstart
        unfold handleSubmitStart at hstart
        by_cases hv : (validateForm s0.formData).1 = false
        · simp [hv] at hstart
        · rw [if_neg hv] at hstart
          simp only [Prod.mk.injEq] at hstart
          rw [← hstart.1]
  | resumed s s1 p p1 _ hres ih =>
    cases p with
    | orderInsert row =>
      simp only [handleSubmitResume] at hres
      split at hres
      · simp at hres
      · simp only [Prod.mk.injEq] at hres
        rw [← hres.1]
        exact ih
    | itemsInsert orderData orderItems =>
      simp only [handleSubmitResume] at hres
      split at hres
      · simp only [Prod.mk.injEq] at hres
        rw [← hres.1]
        exact ih
      · simp at hres
    | orderDelete orderData =>
      simp [handleSubmitResume] at hres

/-- C17: while a checkout is in flight, that is, after a submit with a valid form started
`handleSubmit` and before it reached one of its ends, `processing` is true and the submit
button is disabled, so a second submit of the form starts no `handleSubmit`: no request
is added, in particular no second order insert, and the state is unchanged. -/
theorem C17_no_second_submit_in_flight (user : Identity) (f : Faults) (now : Int)
    (s : CheckoutState) (p : Suspended) (h : InFlight user f now s p) :
    s.processing = true ∧
    (Checkout s = CheckoutView.noItems ∨
      Checkout s = CheckoutView.form true "Processing...") ∧
    submitEvent user s = (s, Option.none) ∧
    (submitEvent user s).1.requests = s.requests ∧
    orderInserts (submitEvent user s).1.requests = orderInserts s.requests := by
  have hp : s.processing = true := h.processing
  have hview : Checkout s = CheckoutView.noItems ∨
      Checkout s = CheckoutView.form true "Processing..." := by
    unfold Checkout
    by_cases hc : s.cartItems.length = 0
    · exact Or.inl (by rw [if_pos hc])
    · exact Or.inr (by rw [if_neg hc, hp]; rfl)
  have hev : submitEvent user s = (s, Option.none) := by
    unfold submitEvent
    rcases hview with hv | hv
    · rw [hv]
    · rw [hv]; rfl
  exact ⟨hp, hview, hev, by rw [hev], by rw [hev]⟩

/-- Witness of C17: after the first submit of the sample checkout the order insert is
pending, and a second submit changes nothing. -/
theorem C17_no_second_submit_in_flight_witness :
    InFlight buyerB Faults.none 50 (submitEvent buyerB sampleCheckout).1
      (Suspended.orderInsert
        { user_id := 7, total_price := 13000, status := "confirmed",
          customer_details := sampleForm }) ∧
    submitEvent buyerB (submitEvent buyerB sampleCheckout).1 =
      ((submitEvent buyerB sampleCheckout).1, Option.none) ∧
    orderInserts (submitEvent buyerB (submitEvent buyerB sampleCheckout).1).1.requests =
      [{ user_id := 7, total_price := 13000, status := "confirmed",
         customer_details := sampleForm }] := by
  have hfl : InFlight buyerB Faults.none 50 (submitEvent buyerB sampleCheckout).1
      (Suspended.orderInsert
        { user_id := 7, total_price := 13000, status := "confirmed",
          customer_details := sampleForm }) :=
    InFlight.started sampleCheckout _ _ (by decide)
  have h := C17_no_second_submit_in_flight buyerB Faults.none 50 _ _ hfl
  exact ⟨hfl, h.2.2.1, by decide⟩

/-- The handler itself has no check of `processing`: started directly on a state with a
valid form, it sends an order insert whatever `processing` is.  The protection against a
second submit is the disabled button. -/
theorem handleSubmitStart_ignores_processing (user : Identity) (s : CheckoutState)
    (hvalid : (validateForm s.formData).1 = true) :
    (handleSubmitStart user s).1.requests = s.requests ++
      [StoreOp.insertOrder
        { user_id := user.id, total_price := getCartTotal s.cartItems, status := "confirmed",
          customer_details := s.formData }] := by
  have hv : ¬ ((validateForm s.formData).1 = false) := by rw [hvalid]; decide
  simp [handleSubmitStart, hv]

/-- The handler itself has no check of the cart: run directly on an empty cart with a
valid form, it inserts an order of total 0 and an empty batch.  The protection against
an empty checkout is that `Checkout` renders no form. -/
theorem handleSubmit_empty_cart_writes :
    (handleSubmit buyerB Faults.none 50 emptyCartCheckout).requests =
      [StoreOp.insertOrder
        { user_id := 7, total_price := 0, status := "confirmed",
          customer_details := sampleForm },
       StoreOp.insertOrderItems []] := by
  decide

/-- C18 fails as stated: on the sample checkout, when the `order_items` insert fails and
the delete of the order fails too, nothing is written to the console and the only
message shown is the `order_items` insert error; the failure of the delete leaves no
trace, and the order created in step 1 stays in the store. -/
theorem C18_compensation_failure_not_surfaced :
    (validateForm sampleCheckout.formData).1 = true ∧
    itemsInsertAndDeleteFail.orderItemsInsert = some "insert rejected" ∧
    itemsInsertAndDeleteFail.ordersDelete = some "delete rejected" ∧
    StoreOp.deleteOrder 102 ∈
      (handleSubmit buyerB itemsInsertAndDeleteFail 50 sampleCheckout).requests ∧
    (handleSubmit buyerB itemsInsertAndDeleteFail 50 sampleCheckout).console = [] ∧
    (handleSubmit buyerB itemsInsertAndDeleteFail 50 sampleCheckout).alerts =
      ["Error saving order items: insert rejected"] ∧
    (handleSubmit buyerB itemsInsertAndDeleteFail 50 sampleCheckout).errors = [] ∧
    (handleSubmit buyerB itemsInsertAndDeleteFail 50 sampleCheckout).db.orders.map
      (fun o => o.id) = [100, 101, 102] := by
  decide

/-- C18 as amended: with a valid form, when the `order_items` insert fails and the delete
of the order fails too, the answer of the delete is not looked at: nothing is written to
the console and no second message is shown.  The one message shown is the `order_items`
insert error, and the outcome is not a success: the cart is not cleared and there is no
navigation.  The order created in step 1 stays in the store. -/
theorem C18_items_error_reported_when_delete_fails (user : Identity) (f : Faults) (now : Int)
    (s : CheckoutState) (itemsError deleteError : String)
    (hvalid : (validateForm s.formData).1 = true) (hins : f.ordersInsert = Option.none)
    (hitems : f.orderItemsInsert = some itemsError)
    (hdel : f.ordersDelete = some deleteError) :
    (handleSubmit user f now s).alerts =
      s.alerts ++ ["Error saving order items: " ++ itemsError] ∧
    (handleSubmit user f now s).console = s.console ∧
    (handleSubmit user f now s).errors = [] ∧
    (handleSubmit user f now s).cartItems = s.cartItems ∧
    (handleSubmit user f now s).cartClears = s.cartClears ∧
    (handleSubmit user f now s).navigation = s.navigation ∧
    (handleSubmit user f now s).processing = false ∧
    (handleSubmit user f now s).requests.getLast? =
      some (StoreOp.deleteOrder (freshId (s.db.orders.map (fun o => o.id)))) ∧
    (handleSubmit user f now s).db.orders = s.db.orders ++
      [{ id := freshId (s.db.orders.map (fun o => o.id)), user_id := user.id,
         status := "confirmed", total_price := getCartTotal s.cartItems,
         customer_details := s.formData, created_at := now }] := by
  have hv : ¬ ((validateForm s.formData).1 = false) := by rw [hvalid]; decide
  have herr : (validateForm s.formData).2 = [] := (validateForm_fst_iff s.formData).mp hvalid
  simp [handleSubmit, hv, insertOrder, insertOrderItems, deleteOrder, hins, hitems, hdel, herr]

/-- Witness of the amended C18 on the sample checkout. -/
theorem C18_items_error_reported_when_delete_fails_witness :
    ((validateForm sampleCheckout.formData).1 = true ∧
      itemsInsertAndDeleteFail.ordersInsert = Option.none ∧
      itemsInsertAndDeleteFail.orderItemsInsert = some "insert rejected" ∧
      itemsInsertAndDeleteFail.ordersDelete = some "delete rejected") ∧
    (handleSubmit buyerB itemsInsertAndDeleteFail 50 sampleCheckout).alerts =
      sampleCheckout.alerts ++ ["Error saving order items: " ++ "insert rejected"] ∧
    (handleSubmit buyerB itemsInsertAndDeleteFail 50 sampleCheckout).console =
      sampleCheckout.console ∧
    (handleSubmit buyerB itemsInsertAndDeleteFail 50 sampleCheckout).cartItems =
      sampleCheckout.cartItems ∧
    (handleSubmit buyerB itemsInsertAndDeleteFail 50 sampleCheckout).navigation =
      sampleCheckout.navigation := by
  obtain ⟨h1, h2, _, h4, _, h6, _⟩ :=
    C18_items_error_reported_when_delete_fails buyerB itemsInsertAndDeleteFail 50
      sampleCheckout "insert rejected" "delete rejected" (by decide) rfl rfl rfl
  exact ⟨⟨by decide, rfl, rfl, rfl⟩, h1, h2, h4, h6⟩

/-- C19: for every identity and every list of orders the load produced, what `fetchData`
shows under the tab `all` is a rearrangement of the whole list, and under any other tab a
rearrangement of the orders of the list whose status is the tab: each of those is kept,
as often as it occurs, and every other order is dropped. -/
theorem C19_status_filter (u : Identity) (filter : String) (db : Store) (f : Faults)
    (st : HistoryState) (finalOrders : List Order)
    (hload : loadOrders u db f = (finalOrders, Option.none)) :
    (filter = "all" → ((fetchData (some u) filter db f st).orders).Perm finalOrders) ∧
    (filter ≠ "all" → ((fetchData (some u) filter db f st).orders).Perm
      (finalOrders.filter (fun order => order.status = filter))) ∧
    (∀ o, o ∈ (fetchData (some u) filter db f st).orders ↔
      (o ∈ finalOrders ∧ (filter = "all" ∨ o.status = filter))) ∧
    (∀ o, (filter = "all" ∨ o.status = filter) →
      (fetchData (some u) filter db f st).orders.count o = finalOrders.count o) := by
  have hres := fetchData_orders_of_ok u filter db f st (by rw [hload])
  rw [hload] at hres
  simp only at hres
  have hall : filter = "all" → ((fetchData (some u) filter db f st).orders).Perm finalOrders := by
    intro hf
    rw [hres, if_neg (by simpa using hf)]
    exact sortNewestFirst_perm _
  have hother : filter ≠ "all" → ((fetchData (some u) filter db f st).orders).Perm
      (finalOrders.filter (fun order => order.status = filter)) := by
    intro hf
    rw [hres, if_pos hf]
    exact sortNewestFirst_perm _
  refine ⟨hall, hother, ?_, ?_⟩
  · intro o
    by_cases hf : filter = "all"
    · rw [(hall hf).mem_iff]
      simp [hf]
    · rw [(hother hf).mem_iff, List.mem_filter]
      simp [hf]
  · intro o ho
    by_cases hf : filter = "all"
    · exact (hall hf).count_eq o
    · rw [(hother hf).count_eq o]
      rcases ho with ho | ho
      · exact absurd ho hf
      · exact List.count_filter (by simpa using ho)

/-- Witness of C19 on the sample store: the administrator under the tab `pending` is
shown order 101 only. -/
theorem C19_status_filter_witness :
    loadOrders adminA sampleStore Faults.none =
      (sampleStore.orders.map (joinOrder sampleStore), Option.none) ∧
    (∀ o, o ∈ (fetchData (some adminA) "pending" sampleStore Faults.none emptyHistory).orders ↔
      (o ∈ sampleStore.orders.map (joinOrder sampleStore) ∧
        ("pending" = "all" ∨ o.status = "pending"))) ∧
    (fetchData (some adminA) "pending" sampleStore Faults.none emptyHistory).orders.map
      (fun o => o.id) = [101] :=
  ⟨by decide,
   (C19_status_filter adminA "pending" sampleStore Faults.none emptyHistory
      (sampleStore.orders.map (joinOrder sampleStore)) (by decide)).2.2.1,
   by decide⟩

theorem sortNewestFirst_sorted (l : List Order) :
    (sortNewestFirst l).Sorted (fun a b => b.created_at ≤ a.created_at) := by
  haveI : IsTotal Order (fun a b => b.created_at ≤ a.created_at) :=
    ⟨fun a b => le_total b.created_at a.created_at⟩
  haveI : IsTrans Order (fun a b => b.created_at ≤ a.created_at) :=
    ⟨fun _ _ _ hab hbc => le_trans hbc hab⟩
  exact List.sorted_insertionSort _ l

/-- C20: for every identity, what `fetchData` shows after a load that succeeded is a
rearrangement of the status-filtered orders, sorted by `created_at` from the most recent
to the oldest: each order is at least as recent as every later one, in particular as the
next one. -/
theorem C20_sorted_newest_first (u : Identity) (filter : String) (db : Store) (f : Faults)
    (st : HistoryState) (finalOrders : List Order)
    (hload : loadOrders u db f = (finalOrders, Option.none)) :
    ((fetchData (some u) filter db f st).orders).Perm
      (if filter ≠ "all" then finalOrders.filter (fun order => order.status = filter)
       else finalOrders) ∧
    List.Pairwise (fun a b => b.created_at ≤ a.created_at)
      (fetchData (some u) filter db f st).orders ∧
    List.Chain' (fun a b => b.created_at ≤ a.created_at)
      (fetchData (some u) filter db f st).orders := by
  have hres := fetchData_orders_of_ok u filter db f st (by rw [hload])
  rw [hload] at hres
  simp only at hres
  rw [hres]
  exact ⟨sortNewestFirst_perm _, sortNewestFirst_sorted _, (sortNewestFirst_sorted _).chain'⟩

/-- Witness of C20 on the sample store: the administrator is shown order 101 (time 9)
before order 100 (time 5). -/
theorem C20_sorted_newest_first_witness :
    loadOrders adminA sampleStore Faults.none =
      (sampleStore.orders.map (joinOrder sampleStore), Option.none) ∧
    List.Chain' (fun a b => b.created_at ≤ a.created_at)
      (fetchData (some adminA) "all" sampleStore Faults.none emptyHistory).orders ∧
    (fetchData (some adminA) "all" sampleStore Faults.none emptyHistory).orders.map
      (fun o => (o.id, o.created_at)) = [(101, 9), (100, 5)] :=
  ⟨by decide,
   (C20_sorted_newest_first adminA "all" sampleStore Faults.none emptyHistory
      (sampleStore.orders.map (joinOrder sampleStore)) (by decide)).2.2,
   by decide⟩

/-! ### Fetch errors, end to end, session, cart store, event form, navigation -/

/-- What `fetchData` leaves when the load failed: no order, the error on the console,
and loading over. -/
theorem fetchData_of_error (u : Identity) (filter : String) (db : Store) (f : Faults)
    (st : HistoryState) (e : String) (h : (loadOrders u db f).2 = some e) :
    fetchData (some u) filter db f st =
      { orders := [], loading := false,
        console := st.console ++ ["Error fetching orders: " ++ e] } := by
  rcases hl : loadOrders u db f with ⟨fo, fe⟩
  rw [hl] at h
  simp only at h
  subst h
  simp only [fetchData, hl]

/-- C21: for every identity, when a read that `fetchData` sends fails (the events read of
a vendor; the `order_items` read, sent when the vendor owns an event; the orders read by
id, sent when a line references one of the vendor's events; the orders read of any other
role), `fetchData` shows no order, whatever was shown before and whatever earlier reads
returned, writes the error to the console, and ends loading. -/
theorem C21_fetch_error_shows_nothing (u : Identity) (filter : String) (db : Store)
    (f : Faults) (st : HistoryState) (e : String) :
    ((loadOrders u db f).2 = some e →
      fetchData (some u) filter db f st =
        { orders := [], loading := false,
          console := st.console ++ ["Error fetching orders: " ++ e] }) ∧
    (u.role = "vendor" → f.eventsSelect = some e →
      fetchData (some u) filter db f st =
        { orders := [], loading := false,
          console := st.console ++ ["Error fetching orders: " ++ e] }) ∧
    (u.role = "vendor" → f.eventsSelect = Option.none → ownEventIds db u.id ≠ [] →
      f.orderItemsSelect = some e →
      fetchData (some u) filter db f st =
        { orders := [], loading := false,
          console := st.console ++ ["Error fetching orders: " ++ e] }) ∧
    (u.role = "vendor" → f.eventsSelect = Option.none → f.orderItemsSelect = Option.none →
      (∃ l ∈ db.order_items, l.event_id ∈ ownEventIds db u.id) →
      f.ordersSelect = some e →
      fetchData (some u) filter db f st =
        { orders := [], loading := false,
          console := st.console ++ ["Error fetching orders: " ++ e] }) ∧
    (u.role ≠ "vendor" → f.ordersSelect = some e →
      fetchData (some u) filter db f st =
        { orders := [], loading := false,
          console := st.console ++ ["Error fetching orders: " ++ e] }) := by
  refine ⟨fetchData_of_error u filter db f st e, ?_, ?_, ?_, ?_⟩
  · intro hrole hev
    apply fetchData_of_error
    simp [loadOrders, hrole, selectEventIds, hev]
  · intro hrole hev hown hit
    apply fetchData_of_error
    have hlen : (ownEventIds db u.id).length > 0 := List.length_pos.mpr hown
    unfold ownEventIds at hlen
    simp only [loadOrders, hrole, selectEventIds, hev, selectOrderIds, hit, if_true]
    rw [if_pos hlen]
  · rintro hrole hev hit ⟨l, hl, hle⟩ hor
    apply fetchData_of_error
    have hlen : (ownEventIds db u.id).length > 0 :=
      List.length_pos.mpr (List.ne_nil_of_mem hle)
    have hids : (uniqueValues ((db.order_items.filter
        (fun r => (ownEventIds db u.id).contains r.event_id)).map
          (fun r => r.order_id))).length > 0 := by
      apply List.length_pos.mpr
      apply List.ne_nil_of_mem (a := l.order_id)
      rw [mem_uniqueValues]
      exact List.mem_map.mpr ⟨l, List.mem_filter.mpr ⟨hl, List.elem_iff.mpr hle⟩, rfl⟩
    unfold ownEventIds at hlen hids
    simp only [loadOrders, hrole, selectEventIds, hev, selectOrderIds, hit, selectOrdersIn,
      hor, if_true]
    rw [if_pos hlen, if_pos hids]
  · intro hrole hor
    apply fetchData_of_error
    simp [loadOrders, hrole, selectOrders, hor]

/-- Witness of C21 on the sample store: only the orders read fails, for a vendor who was
shown an order before and for a buyer. -/
theorem C21_fetch_error_shows_nothing_witness :
    fetchData (some vendorV) "all" sampleStore
        { Faults.none with ordersSelect := some "timeout" }
        { orders := [joinOrder sampleStore
            { id := 100, user_id := 7, status := "confirmed", total_price := 13000,
              customer_details := sampleForm, created_at := 5 }],
          loading := true, console := [] } =
      { orders := [], loading := false, console := ["Error fetching orders: " ++ "timeout"] } ∧
    fetchData (some buyerB) "all" sampleStore
        { Faults.none with ordersSelect := some "timeout" } emptyHistory =
      { orders := [], loading := false, console := ["Error fetching orders: " ++ "timeout"] } :=
  ⟨(C21_fetch_error_shows_nothing vendorV "all" sampleStore
      { Faults.none with ordersSelect := some "timeout" } _ "timeout").2.2.2.1
      (by decide) rfl rfl (by decide) rfl,
   (C21_fetch_error_shows_nothing buyerB "all" sampleStore
      { Faults.none with ordersSelect := some "timeout" } emptyHistory "timeout").2.2.2.2
      (by decide) rfl⟩

/-- C22: end to end.  From a store without orders and an empty cart, adding E1 (price
5000) with quantity 2 and E2 (price 3000) with quantity 1 gives a cart of total 13000
(the same cart as two clicks on E1 and one on E2); submitting the valid form with every
write succeeding empties the cart, and `fetchData` for that buyer under the tab `all`
then shows exactly one order, of `total_price` 13000 and with two lines. -/
theorem C22_end_to_end :
    freshStore.orders = [] ∧ freshStore.order_items = [] ∧
    scenarioCart = addToCart (addToCart [] eventE1 2) eventE2 1 ∧
    (handleAddToCart eventE2 (handleAddToCart eventE1
      (handleAddToCart eventE1 []).1).1).1 = scenarioCart ∧
    getCartTotal scenarioCart = 13000 ∧
    (validateForm scenarioCheckout.formData).1 = true ∧
    checkoutOperation buyerB Faults.none 50 scenarioCheckout =
      handleSubmit buyerB Faults.none 50 scenarioCheckout ∧
    (checkoutOperation buyerB Faults.none 50 scenarioCheckout).cartItems = [] ∧
    ((fetchData (some buyerB) "all"
        (checkoutOperation buyerB Faults.none 50 scenarioCheckout).db Faults.none
        emptyHistory).orders).length = 1 ∧
    (fetchData (some buyerB) "all"
        (checkoutOperation buyerB Faults.none 50 scenarioCheckout).db Faults.none
        emptyHistory).orders.map (fun o => (o.user_id, o.total_price, o.order_items.length)) =
      [(7, 13000, 2)] ∧
    (fetchData (some buyerB) "all"
        (checkoutOperation buyerB Faults.none 50 scenarioCheckout).db Faults.none
        emptyHistory).orders.map
      (fun o => o.order_items.map (fun l => (l.event_id, l.quantity, l.price))) =
      [[(1, 2, 5000), (2, 1, 3000)]] := by
  refine ⟨rfl, rfl, rfl, ?_, ?_, ?_, ?_, ?_, ?_, ?_, ?_⟩ <;> decide

/-- The sign-out fails and nothing is reported: `logout` leaves the user logged in.
C23 asks for the user to be `null` here. -/
theorem C23_logout_keeps_user_when_sign_out_fails :
    signOutFails.error = some "Failed to fetch" ∧ signOutFails.notifies = Option.none ∧
    loggedIn.user = some buyerB ∧
    (logout true signOutFails loggedIn []).1.user = some buyerB ∧
    (logout true signOutFails loggedIn []).2 = ["Error logging out: " ++ "Failed to fetch"] ∧
    (logout false signOutFails loggedIn []).1.user = Option.none ∧
    (logout true signOutSucceeds loggedIn []).1.user = Option.none := by
  decide

/-- The user after `logout`: `null` when the client is not configured or the auth
collaborator reports a session without user; otherwise the user is the one of the
reported session, or is unchanged when nothing is reported. -/
theorem logout_user (configured : Bool) (outcome : SignOutOutcome) (st : AuthState)
    (console : List String) :
    (configured = false → (logout configured outcome st console).1.user = Option.none) ∧
    (configured = true → outcome.notifies = some Option.none →
      (logout configured outcome st console).1.user = Option.none) ∧
    (configured = true → outcome.notifies = Option.none →
      (logout configured outcome st console).1.user = st.user) := by
  refine ⟨?_, ?_, ?_⟩
  · intro hc
    simp [logout, hc]
  · intro hc hn
    cases he : outcome.error <;> simp [logout, hc, hn, he, onAuthStateChange]
  · intro hc hn
    cases he : outcome.error <;> simp [logout, hc, hn, he]


theorem addToCart_ids (cartItems : List CartItem) (event : CatalogEvent) (quantity : Int) :
    (addToCart cartItems event quantity).map (fun l => l.id) =
      if cartItems.any (fun line => line.id = event.id) then cartItems.map (fun l => l.id)
      else cartItems.map (fun l => l.id) ++ [event.id] := by
  unfold addToCart
  by_cases h : cartItems.any (fun line => line.id = event.id) = true
  · rw [if_pos h, if_pos h, List.map_map]
    apply List.map_congr_left
    intro l _
    by_cases hl : l.id = event.id <;> simp [hl]
  · rw [if_neg h, if_neg h]
    simp

theorem updateQuantity_ids (cartItems : List CartItem) (id : Nat) (n : Int) :
    (updateQuantity cartItems id n).map (fun l => l.id) = cartItems.map (fun l => l.id) := by
  unfold updateQuantity
  by_cases h : n < 1
  · rw [if_pos h]
  · rw [if_neg h, List.map_map]
    apply List.map_congr_left
    intro l _
    by_cases hl : l.id = id <;> simp [hl]

theorem applyCartOp_nodup (cartItems : List CartItem) (op : CartOp)
    (h : (cartItems.map (fun l => l.id)).Nodup) :
    ((applyCartOp cartItems op).map (fun l => l.id)).Nodup := by
  cases op with
  | add event quantity =>
    simp only [applyCartOp]
    rw [addToCart_ids]
    by_cases hany : cartItems.any (fun line => line.id = event.id) = true
    · rw [if_pos hany]; exact h
    · rw [if_neg hany]
      have hnot : event.id ∉ cartItems.map (fun l => l.id) := by
        intro hm
        obtain ⟨l, hl, hid⟩ := List.mem_map.mp hm
        exact hany (List.any_eq_true.mpr ⟨l, hl, by simpa using hid⟩)
      exact List.Nodup.append h (List.nodup_singleton _)
        (by
          intro a ha hb
          rw [List.mem_singleton] at hb
          exact hnot (hb ▸ ha))
  | setQuantity id n =>
    simp only [applyCartOp]
    rw [updateQuantity_ids]; exact h
  | remove id =>
    simp only [applyCartOp, removeFromCart]
    exact h.sublist ((List.filter_sublist cartItems).map _)

theorem runCartOps_nodup (ops : List CartOp) :
    ∀ cartItems : List CartItem, (cartItems.map (fun l => l.id)).Nodup →
      ((runCartOps ops cartItems).map (fun l => l.id)).Nodup := by
  induction ops with
  | nil => intro c h; exact h
  | cons op rest ih =>
    intro c h
    exact ih _ (applyCartOp_nodup c op h)

theorem sum_map_update (cartItems : List CartItem) (g : CartItem → CartItem) (id : Nat)
    (d : Int) (hnd : (cartItems.map (fun l => l.id)).Nodup)
    (hg : ∀ l ∈ cartItems, l.id = id →
      (g l).price * (g l).quantity = l.price * l.quantity + d)
    (hmem : ∃ l ∈ cartItems, l.id = id) :
    ((cartItems.map (fun l => if l.id = id then g l else l)).map
      (fun l => l.price * l.quantity)).sum =
      (cartItems.map (fun l => l.price * l.quantity)).sum + d := by
  induction cartItems with
  | nil => obtain ⟨l, hl, _⟩ := hmem; simp at hl
  | cons a as ih =>
    simp only [List.map_cons, List.nodup_cons, List.mem_map, not_exists, not_and] at hnd
    by_cases ha : a.id = id
    · have hrest : as.map (fun l => if l.id = id then g l else l) = as := by
        conv_rhs => rw [← List.map_id as]
        apply List.map_congr_left
        intro l hl
        have : l.id ≠ id := fun h => hnd.1 l hl (h.trans ha.symm)
        simp [this]
      simp only [List.map_cons, if_pos ha, hrest, List.sum_cons]
      rw [hg a (List.mem_cons_self _ _) ha]
      ring
    · have hmem2 : ∃ l ∈ as, l.id = id := by
        obtain ⟨l, hl, hid⟩ := hmem
        rcases List.mem_cons.mp hl with rfl | hl
        · exact absurd hid ha
        · exact ⟨l, hl, hid⟩
      have := ih hnd.2 (fun l hl => hg l (List.mem_cons_of_mem _ hl)) hmem2
      simp only [List.map_cons, if_neg ha, List.sum_cons, this]
      ring

/-- C24: on the cart store as the specification gives it, after every sequence of add,
setQuantity and remove operations, from the empty cart or from any cart without two lines
of one item, no two lines share an item id; adding an item already present keeps the
lines and adds the quantity to its line, so the total grows by the line's price times
the added quantity; and `total()` is the sum of `price × quantity` over the lines. -/
theorem C24_cart_lines_unique (ops : List CartOp) :
    ((runCartOps ops []).map (fun l => l.id)).Nodup ∧
    (∀ cartItems : List CartItem, (cartItems.map (fun l => l.id)).Nodup →
      ((runCartOps ops cartItems).map (fun l => l.id)).Nodup) ∧
    getCartTotal (runCartOps ops []) =
      ((runCartOps ops []).map (fun l => l.price * l.quantity)).sum ∧
    (∀ (event : CatalogEvent) (quantity : Int) (line : CartItem),
      line ∈ runCartOps ops [] → line.id = event.id →
      (addToCart (runCartOps ops []) event quantity).map (fun l => l.id) =
        (runCartOps ops []).map (fun l => l.id) ∧
      { line with quantity := line.quantity + quantity } ∈
        addToCart (runCartOps ops []) event quantity ∧
      getCartTotal (addToCart (runCartOps ops []) event quantity) =
        getCartTotal (runCartOps ops []) + line.price * quantity) ∧
    (∀ (event : CatalogEvent) (quantity : Int),
      (∀ line ∈ runCartOps ops [], line.id ≠ event.id) →
      addToCart (runCartOps ops []) event quantity = runCartOps ops [] ++
        [{ id := event.id, name := event.name, price := event.price, quantity := quantity }]) := by
  have hnd := runCartOps_nodup ops [] (by simp)
  refine ⟨hnd, runCartOps_nodup ops, rfl, ?_, ?_⟩
  · intro event quantity line hline hid
    have hany : (runCartOps ops []).any (fun l => l.id = event.id) = true :=
      List.any_eq_true.mpr ⟨line, hline, by simpa using hid⟩
    refine ⟨?_, ?_, ?_⟩
    · rw [addToCart_ids, if_pos hany]
    · unfold addToCart
      rw [if_pos hany]
      exact List.mem_map.mpr ⟨line, hline, by simp [hid]⟩
    · unfold addToCart getCartTotal
      rw [if_pos hany]
      have hprice : ∀ l ∈ runCartOps ops [], l.id = event.id → l.price = line.price := by
        intro l hl hlid
        have : l = line :=
          List.inj_on_of_nodup_map hnd hl hline (hlid.trans hid.symm)
        rw [this]
      refine sum_map_update (runCartOps ops [])
        (fun l => { l with quantity := l.quantity + quantity }) event.id
        (line.price * quantity) hnd ?_ ⟨line, hline, hid⟩
      intro l hl hlid
      simp only
      rw [← hprice l hl hlid]
      ring
  · intro event quantity hnone
    have hany : ¬ (runCartOps ops []).any (fun l => l.id = event.id) = true := by
      intro h
      obtain ⟨l, hl, hid⟩ := List.any_eq_true.mp h
      exact hnone l hl (by simpa using hid)
    unfold addToCart
    rw [if_neg hany]

/-- Witness of C24: E1 added twice and E2 once, then E2 set to 3 and E1 removed. -/
theorem C24_cart_lines_unique_witness :
    ((runCartOps [CartOp.add eventE1 1, CartOp.add eventE2 1, CartOp.add eventE1 1] []).map
      (fun l => l.id)).Nodup ∧
    runCartOps [CartOp.add eventE1 1, CartOp.add eventE2 1, CartOp.add eventE1 1] [] =
      [{ id := 1, name := "E1", price := 5000, quantity := 2 },
       { id := 2, name := "E2", price := 3000, quantity := 1 }] ∧
    runCartOps [CartOp.add eventE1 1, CartOp.add eventE2 1, CartOp.add eventE1 1,
        CartOp.setQuantity 2 3, CartOp.setQuantity 2 0, CartOp.remove 1] [] =
      [{ id := 2, name := "E2", price := 3000, quantity := 3 }] :=
  ⟨(C24_cart_lines_unique
      [CartOp.add eventE1 1, CartOp.add eventE2 1, CartOp.add eventE1 1]).1,
   by decide, by decide⟩

/-- C25: `handleQuantityChange` with a quantity below 1 does nothing: it does not call
`updateQuantity` and the cart is as before; with a quantity of at least 1 it calls
`updateQuantity` once, with the given id and quantity, and the cart is what that call
makes of it.  This holds for every `updateQuantity`. -/
theorem C25_quantity_change_guard (update : List CartItem → Nat → Int → List CartItem)
    (id : Nat) (n : Int) (page : CartPage) :
    (n < 1 → handleQuantityChange update id n page = page) ∧
    (n < 1 → (handleQuantityChange update id n page).updateQuantityCalls =
      page.updateQuantityCalls ∧
      (handleQuantityChange update id n page).cartItems = page.cartItems) ∧
    (1 ≤ n → (handleQuantityChange update id n page).updateQuantityCalls =
      page.updateQuantityCalls ++ [(id, n)] ∧
      (handleQuantityChange update id n page).cartItems = update page.cartItems id n) := by
  refine ⟨?_, ?_, ?_⟩
  · intro h
    simp [handleQuantityChange, h]
  · intro h
    simp [handleQuantityChange, h]
  · intro h
    have hn : ¬ n < 1 := by omega
    simp [handleQuantityChange, hn]

/-- Witness of C25 on the scenario cart, for the quantities 0 and 3 of item 1. -/
theorem C25_quantity_change_guard_witness :
    handleQuantityChange updateQuantity 1 0
        { cartItems := scenarioCart, updateQuantityCalls := [] } =
      { cartItems := scenarioCart, updateQuantityCalls := [] } ∧
    (handleQuantityChange updateQuantity 1 3
        { cartItems := scenarioCart, updateQuantityCalls := [] }).updateQuantityCalls =
      [] ++ [(1, 3)] ∧
    (handleQuantityChange updateQuantity 1 3
        { cartItems := scenarioCart, updateQuantityCalls := [] }).cartItems =
      [{ id := 1, name := "E1", price := 5000, quantity := 3 },
       { id := 2, name := "E2", price := 3000, quantity := 1 }] :=
  ⟨(C25_quantity_change_guard updateQuantity 1 0
      { cartItems := scenarioCart, updateQuantityCalls := [] }).1 (by decide),
   ((C25_quantity_change_guard updateQuantity 1 3
      { cartItems := scenarioCart, updateQuantityCalls := [] }).2.2 (by decide)).1,
   by decide⟩

/-- C26: `signUp` sends the given role, unchanged, as the `role` of the account data; the
identity built from a session has the role of the session's metadata when that role is
present and not empty, and the role `user` when it is missing or empty; the session
lookup on load and the auth-state-change callback build the same identity from the same
session user. -/
theorem C26_role_verbatim (name email password role : String) (u : SessionUser) :
    (signUpRequest name email password role).dataRole = role ∧
    (signUpRequest name email password role).dataName = name ∧
    appUserOfGetSession u = appUserOfAuthChange u ∧
    (∀ (m : UserMetadata) (r : String), u.user_metadata = some m → m.role = some r → r ≠ "" →
      (appUserOfGetSession u).role = r ∧ (appUserOfAuthChange u).role = r) ∧
    (u.user_metadata = Option.none →
      (appUserOfGetSession u).role = "user" ∧ (appUserOfAuthChange u).role = "user") ∧
    (∀ m : UserMetadata, u.user_metadata = some m → (m.role = Option.none ∨ m.role = some "") →
      (appUserOfGetSession u).role = "user" ∧ (appUserOfAuthChange u).role = "user") ∧
    (∀ st : AuthState,
      (getSession (some { user := some u }) st).user = some (appUserOfGetSession u) ∧
      (onAuthStateChange (some { user := some u }) st).user = some (appUserOfGetSession u)) := by
  refine ⟨rfl, rfl, rfl, ?_, ?_, ?_, ?_⟩
  · intro m r hm hr hne
    simp [appUserOfGetSession, appUserOfAuthChange, hm, hr, orElse, hne]
  · intro hm
    simp [appUserOfGetSession, appUserOfAuthChange, hm, orElse]
  · intro m hm hr
    rcases hr with hr | hr <;>
      simp [appUserOfGetSession, appUserOfAuthChange, hm, hr, orElse]
  · intro st
    exact ⟨rfl, rfl⟩

/-- Witness of C26: an account signed up as a vendor yields a vendor identity. -/
theorem C26_role_verbatim_witness :
    (signUpRequest "V" "v@example.com" "secret" "vendor").dataRole = "vendor" ∧
    (onAuthStateChange (some vendorSession) { user := Option.none, loading := false }).user =
      some vendorV ∧
    (getSession (some vendorSession) { user := Option.none, loading := true }).user =
      some vendorV := by
  have h := C26_role_verbatim "V" "v@example.com" "secret" "vendor"
    { id := 10, email := "v@example.com",
      user_metadata := some { role := some "vendor", name := some "V" } }
  exact ⟨h.1, by decide, by decide⟩

/-- C27: for every identity `V`, when `EventForm` is submitted to edit an event `e` and
the write succeeds, the request is an update filtered on `id = e.id` and
`vendor_id = V.id`: a row that fails one of the two filters is unchanged, so no event of
another vendor changes; no row changes its `id` or its `vendor_id`; and the rows that
pass get the payload.  When the form is submitted without an event, the row added has
`vendor_id = V.id` and the stored rows are unchanged.  When the write fails the table is
unchanged. -/
theorem C27_event_edit_frame (parseFloat parseInt : String → Int) (V : Identity)
    (s : EventFormState) :
    (∀ e : EventRecord,
      (∃ payload, (EventForm.handleSubmit parseFloat parseInt V (some e) Option.none s).requests =
        s.requests ++ [EventRequest.update payload e.id V.id]) ∧
      (EventForm.handleSubmit parseFloat parseInt V (some e) Option.none s).events.length =
        s.events.length ∧
      (∀ (i : Nat) (old new : EventRecord), s.events[i]? = some old →
        (EventForm.handleSubmit parseFloat parseInt V (some e) Option.none s).events[i]? =
          some new →
        new.id = old.id ∧ new.vendor_id = old.vendor_id ∧
        (¬ (old.id = e.id ∧ old.vendor_id = V.id) → new = old) ∧
        (old.vendor_id ≠ V.id → new = old) ∧
        (old.id = e.id ∧ old.vendor_id = V.id →
          new.name = s.formData.name ∧ new.price = parseFloat s.formData.price))) ∧
    (∃ payload created,
      (EventForm.handleSubmit parseFloat parseInt V Option.none Option.none s).requests =
        s.requests ++ [EventRequest.insert payload V.id] ∧
      (EventForm.handleSubmit parseFloat parseInt V Option.none Option.none s).events =
        s.events ++ [created] ∧
      created.vendor_id = V.id ∧ created.id ∉ s.events.map (fun e => e.id)) ∧
    (∀ (event : Option EventRecord) (message : String),
      (EventForm.handleSubmit parseFloat parseInt V event (some message) s).events = s.events ∧
      (EventForm.handleSubmit parseFloat parseInt V event (some message) s).error = message) := by
  refine ⟨?_, ?_, ?_⟩
  · intro e
    refine ⟨⟨_, rfl⟩, ?_, ?_⟩
    · simp [EventForm.handleSubmit, applyEventRequest]
    · intro i old new hold hnew
      simp only [EventForm.handleSubmit, applyEventRequest, List.getElem?_map, hold,
        Option.map_some', Option.some.injEq] at hnew
      by_cases hc : old.id = e.id ∧ old.vendor_id = V.id
      · rw [if_pos hc] at hnew
        subst hnew
        refine ⟨rfl, rfl, fun h => absurd hc h, fun h => absurd hc.2 h, fun _ => ⟨rfl, rfl⟩⟩
      · rw [if_neg hc] at hnew
        subst hnew
        exact ⟨rfl, rfl, fun _ => rfl, fun _ => rfl, fun h => absurd h hc⟩
  · exact ⟨_, _, rfl, rfl, rfl, freshId_not_mem _⟩
  · intro event message
    exact ⟨rfl, rfl⟩

/-- Witness of C27 on the sample events: vendor 10 editing its event 1 changes that row
only; editing event 2 of vendor 20 changes nothing; a new event belongs to vendor 10. -/
theorem C27_event_edit_frame_witness :
    (EventForm.handleSubmit readNumber readNumber vendorV Option.none (some "denied")
      sampleEventForm).events = sampleEventForm.events ∧
    (EventForm.handleSubmit readNumber readNumber vendorV (sampleEvents.head?) Option.none
      sampleEventForm).events.map (fun e => (e.id, e.vendor_id, e.name, e.price)) =
      [(1, 10, "New name", 7000), (2, 20, "E2", 3000)] ∧
    (EventForm.handleSubmit readNumber readNumber vendorV (sampleEvents.getLast?) Option.none
      sampleEventForm).events = sampleEvents ∧
    (EventForm.handleSubmit readNumber readNumber vendorV Option.none Option.none
      sampleEventForm).events.map (fun e => (e.id, e.vendor_id, e.name, e.price)) =
      [(1, 10, "E1", 5000), (2, 20, "E2", 3000), (3, 10, "New name", 7000)] :=
  ⟨((C27_event_edit_frame readNumber readNumber vendorV sampleEventForm).2.2
      Option.none "denied").1,
   by decide, by decide, by decide⟩

/-- C28: for every identity whose role is neither `vendor` nor `user`, `fetchData` sends
the orders read without a buyer filter; when the read succeeds, what it shows is a
rearrangement, most recent first, of every stored order that passes the status tab, each
with its stored fields, its stored `total_price` and all of its stored lines. -/
theorem C28_other_roles_see_all (u : Identity) (filter : String) (db : Store) (f : Faults)
    (st : HistoryState) (hv : u.role ≠ "vendor") (hu : u.role ≠ "user") :
    ((∀ data, selectOrders db f Option.none = Except.ok data →
        loadOrders u db f = (data, Option.none)) ∧
      (∀ error, selectOrders db f Option.none = Except.error error →
        loadOrders u db f = ([], some error))) ∧
    (f.ordersSelect = Option.none →
      ((fetchData (some u) filter db f st).orders).Perm
        ((db.orders.map (joinOrder db)).filter
          (fun o => decide (filter = "all") || decide (o.status = filter))) ∧
      List.Pairwise (fun a b => b.created_at ≤ a.created_at)
        (fetchData (some u) filter db f st).orders ∧
      (∀ r ∈ db.orders, (filter = "all" ∨ r.status = filter) →
        joinOrder db r ∈ (fetchData (some u) filter db f st).orders) ∧
      (∀ o ∈ (fetchData (some u) filter db f st).orders,
        ∃ r ∈ db.orders, o = joinOrder db r ∧ o.total_price = r.total_price ∧
          o.order_items.map OrderItem.toRow =
            db.order_items.filter (fun l => l.order_id = r.id))) := by
  constructor
  · constructor
    · intro data hd
      unfold loadOrders
      rw [if_neg hv, if_neg hu, hd]
    · intro error hd
      unfold loadOrders
      rw [if_neg hv, if_neg hu, hd]
  · intro hor
    have hl := loadOrders_other_ok u db f hv hor
    rw [if_neg hu] at hl
    have hres := fetchData_orders_of_ok u filter db f st (by rw [hl])
    rw [hl] at hres
    simp only at hres
    have hfilter : (if filter ≠ "all" then
          (db.orders.map (joinOrder db)).filter (fun order => order.status = filter)
        else db.orders.map (joinOrder db)) =
        (db.orders.map (joinOrder db)).filter
          (fun o => decide (filter = "all") || decide (o.status = filter)) := by
      by_cases hf : filter = "all"
      · simp [hf]
      · simp [hf]
    rw [hfilter] at hres
    have hperm : ((fetchData (some u) filter db f st).orders).Perm
        ((db.orders.map (joinOrder db)).filter
          (fun o => decide (filter = "all") || decide (o.status = filter))) := by
      rw [hres]; exact sortNewestFirst_perm _
    refine ⟨hperm, ?_, ?_, ?_⟩
    · rw [hres]; exact sortNewestFirst_sorted _
    · intro r hr hpass
      rw [hperm.mem_iff, List.mem_filter]
      refine ⟨List.mem_map.mpr ⟨r, hr, rfl⟩, ?_⟩
      rcases hpass with h | h
      · simp [h]
      · simp [joinOrder, h]
    · intro o ho
      rw [hperm.mem_iff, List.mem_filter] at ho
      obtain ⟨r, hr, rfl⟩ := List.mem_map.mp ho.1
      exact ⟨r, hr, rfl, rfl, embedItems_toRow db r.id⟩

/-- Witness of C28 on the sample store: an identity with the role `guest` is shown both
orders. -/
theorem C28_other_roles_see_all_witness :
    (("guest" : String) ≠ "vendor" ∧ ("guest" : String) ≠ "user") ∧
    (fetchData (some { id := 99, email := "g@example.com", role := "guest", name := "G" })
      "all" sampleStore Faults.none emptyHistory).orders.map
        (fun o => (o.id, o.total_price, o.order_items.length)) =
      [(101, 3000, 1), (100, 13000, 2)] ∧
    ∀ r ∈ sampleStore.orders, ("all" = "all" ∨ r.status = "all") →
      joinOrder sampleStore r ∈
        (fetchData (some { id := 99, email := "g@example.com", role := "guest", name := "G" })
          "all" sampleStore Faults.none emptyHistory).orders :=
  ⟨⟨by decide, by decide⟩, by decide,
   ((C28_other_roles_see_all
      { id := 99, email := "g@example.com", role := "guest", name := "G" } "all" sampleStore
      Faults.none emptyHistory (by decide) (by decide)).2 rfl).2.2.1⟩

theorem sum_ite_unique (vs : List Nat) (q : Nat → Bool) (c : Int) (hvs : vs.Nodup)
    (v0 : Nat) (hv0 : v0 ∈ vs) (hq : q v0 = true) (huniq : ∀ w ∈ vs, q w = true → w = v0) :
    (vs.map (fun v => if q v = true then c else 0)).sum = c := by
  induction vs with
  | nil => simp at hv0
  | cons a as ih =>
    rw [List.nodup_cons] at hvs
    rcases List.mem_cons.mp hv0 with rfl | hin
    · have hzero : as.map (fun v => if q v = true then c else 0) = as.map (fun _ => (0 : Int)) := by
        apply List.map_congr_left
        intro w hw
        have : ¬ q w = true := by
          intro hqw
          have := huniq w (List.mem_cons_of_mem _ hw) hqw
          exact hvs.1 (this ▸ hw)
        rw [if_neg this]
      simp [hq, hzero]
    · have ha : ¬ q a = true := by
        intro hqa
        have := huniq a (List.mem_cons_self _ _) hqa
        exact hvs.1 (this ▸ hin)
      have := ih hvs.2 hin (fun w hw => huniq w (List.mem_cons_of_mem _ hw))
      simp [ha, this]

theorem linesTotal_cons (l : OrderItem) (ls : List OrderItem) :
    linesTotal (l :: ls) = l.price * l.quantity + linesTotal ls := by
  simp [linesTotal]

theorem linesTotal_filter_cons (p : OrderItem → Bool) (l : OrderItem) (ls : List OrderItem) :
    linesTotal ((l :: ls).filter p) =
      (if p l = true then l.price * l.quantity else 0) + linesTotal (ls.filter p) := by
  by_cases h : p l = true
  · rw [List.filter_cons_of_pos h, if_pos h, linesTotal_cons]
  · rw [List.filter_cons_of_neg h, if_neg h, zero_add]

/-- Splitting lines among keys of which each line has exactly one splits their total. -/
theorem sum_shares (vs : List Nat) (p : Nat → OrderItem → Bool) (hvs : vs.Nodup)
    (lines : List OrderItem)
    (h : ∀ l ∈ lines, ∃ v ∈ vs, p v l = true ∧ ∀ w ∈ vs, p w l = true → w = v) :
    (vs.map (fun v => linesTotal (lines.filter (p v)))).sum = linesTotal lines := by
  induction lines with
  | nil => simp [linesTotal]
  | cons l ls ih =>
    have hsplit : vs.map (fun v => linesTotal ((l :: ls).filter (p v))) =
        vs.map (fun v => (if p v l = true then l.price * l.quantity else 0) +
          linesTotal (ls.filter (p v))) :=
      List.map_congr_left (fun v _ => linesTotal_filter_cons (p v) l ls)
    rw [hsplit, List.sum_map_add, ih (fun x hx => h x (List.mem_cons_of_mem _ hx)),
      linesTotal_cons]
    obtain ⟨v0, hv0, hp, huniq⟩ := h l (List.mem_cons_self _ _)
    rw [sum_ite_unique vs (fun v => p v l) (l.price * l.quantity) hvs v0 hv0 hp huniq]

theorem linesTotal_filter_le (p : OrderItem → Bool) (lines : List OrderItem)
    (h : ∀ l ∈ lines, 0 ≤ l.price ∧ 0 ≤ l.quantity) :
    linesTotal (lines.filter p) ≤ linesTotal lines := by
  induction lines with
  | nil => simp
  | cons l ls ih =>
    have hl := h l (List.mem_cons_self _ _)
    have hnn : 0 ≤ l.price * l.quantity := mul_nonneg hl.1 hl.2
    have hrest := ih (fun x hx => h x (List.mem_cons_of_mem _ hx))
    rw [linesTotal_filter_cons, linesTotal_cons]
    by_cases hp : p l = true
    · rw [if_pos hp]; omega
    · rw [if_neg hp]; omega

theorem linesTotal_embedItems (db : Store) (order_id : Nat) :
    linesTotal (embedItems db order_id) =
      storedTotal (db.order_items.filter (fun l => l.order_id = order_id)) := by
  simp [linesTotal, storedTotal, embedItems, List.map_map, Function.comp_def, joinItem]

theorem vendorShare_eq (db : Store) (uid : Nat) (r : OrderRow) :
    vendorShare db uid r =
      linesTotal ((embedItems db r.id).filter
        (fun l => (ownEventIds db uid).contains l.event_id)) := by
  unfold vendorShare
  rw [vendorView_total]
  rfl

/-- C29: for a stored order whose `total_price` is the sum of `price × quantity` over its
lines, in a store where event ids are unique and every line of the order references a
stored event (so that each line has exactly one owner), the totals that `fetchData`
recomputes for the order, summed over all vendors, give the stored `total_price`; a
vendor without a line in the order counts 0; and with non-negative prices and quantities
no vendor's recomputed total exceeds the stored one. -/
theorem C29_revenue_partition (db : Store) (r : OrderRow)
    (hids : (db.events.map (fun e => e.id)).Nodup)
    (hlines : ∀ l ∈ db.order_items, l.order_id = r.id → ∃ e ∈ db.events, e.id = l.event_id)
    (htotal : r.total_price =
      storedTotal (db.order_items.filter (fun l => l.order_id = r.id))) :
    ((vendorsOf db).map (fun v => vendorShare db v r)).sum = r.total_price ∧
    (∀ v, (∀ l ∈ db.order_items, l.order_id = r.id → l.event_id ∉ ownEventIds db v) →
      vendorShare db v r = 0) ∧
    (∀ (V : Identity) (filter : String) (f : Faults) (st : HistoryState), V.role = "vendor" →
      ∀ o ∈ (fetchData (some V) filter db f st).orders, o.id = r.id →
        o.total_price = vendorShare db V.id r) ∧
    ((∀ l ∈ db.order_items, l.order_id = r.id → 0 ≤ l.price ∧ 0 ≤ l.quantity) →
      ∀ v, vendorShare db v r ≤ r.total_price) := by
  have hmemL : ∀ l ∈ embedItems db r.id,
      ∃ row ∈ db.order_items, row.order_id = r.id ∧ l = joinItem db row := by
    intro l hl
    simp only [embedItems, List.mem_map, List.mem_filter, decide_eq_true_eq] at hl
    obtain ⟨row, ⟨hrow, hid⟩, rfl⟩ := hl
    exact ⟨row, hrow, hid, rfl⟩
  refine ⟨?_, ?_, ?_, ?_⟩
  · rw [htotal, ← linesTotal_embedItems]
    have hfun : (fun v => vendorShare db v r) =
        (fun v => linesTotal ((embedItems db r.id).filter
          (fun l => (ownEventIds db v).contains l.event_id))) := by
      funext v
      exact vendorShare_eq db v r
    rw [hfun]
    apply sum_shares (vendorsOf db)
      (fun v l => (ownEventIds db v).contains l.event_id) (List.nodup_dedup _)
    intro l hl
    obtain ⟨row, hrow, hid, rfl⟩ := hmemL l hl
    obtain ⟨e, he, heid⟩ := hlines row hrow hid
    refine ⟨e.vendor_id, ?_, ?_, ?_⟩
    · exact List.mem_dedup.mpr (List.mem_map.mpr ⟨e, he, rfl⟩)
    · exact List.elem_iff.mpr ((mem_ownEventIds db e.vendor_id _).mpr ⟨e, he, heid, rfl⟩)
    · intro w _ hw
      obtain ⟨e2, he2, heid2, hv2⟩ :=
        (mem_ownEventIds db w (joinItem db row).event_id).mp (List.elem_iff.mp hw)
      have : e2 = e := List.inj_on_of_nodup_map hids he2 he (heid2.trans heid.symm)
      rw [← hv2, this]
  · intro v hnone
    rw [vendorShare_eq]
    have : (embedItems db r.id).filter
        (fun l => (ownEventIds db v).contains l.event_id) = [] := by
      rw [List.filter_eq_nil_iff]
      intro l hl hc
      obtain ⟨row, hrow, hid, rfl⟩ := hmemL l hl
      exact hnone row hrow hid (List.elem_iff.mp hc)
    rw [this]
    rfl
  · intro V filter f st hrole o ho hid
    obtain ⟨r2, _, rfl, _⟩ :=
      mem_loadOrders_vendor V db f hrole o (mem_fetchData_orders V filter db f st o ho).1
    have hid2 : r2.id = r.id := hid
    rw [vendorView_total, vendorShare_eq]
    simp only [vendorView, joinOrder, hid2]
  · intro hnn v
    rw [vendorShare_eq, htotal, ← linesTotal_embedItems]
    apply linesTotal_filter_le
    intro l hl
    obtain ⟨row, hrow, hid, rfl⟩ := hmemL l hl
    exact hnn row hrow hid

/-- Witness of C29 on the sample store: order 100 of total 13000 splits into 10000 for
vendor 10 and 3000 for vendor 20. -/
theorem C29_revenue_partition_witness :
    ((sampleStore.events.map (fun e => e.id)).Nodup ∧
      (∀ l ∈ sampleStore.order_items, l.order_id = 100 →
        ∃ e ∈ sampleStore.events, e.id = l.event_id)) ∧
    ((vendorsOf sampleStore).map (fun v => vendorShare sampleStore v
      { id := 100, user_id := 7, status := "confirmed", total_price := 13000,
        customer_details := sampleForm, created_at := 5 })).sum = 13000 ∧
    (vendorsOf sampleStore).map (fun v => vendorShare sampleStore v
      { id := 100, user_id := 7, status := "confirmed", total_price := 13000,
        customer_details := sampleForm, created_at := 5 }) = [10000, 3000] :=
  ⟨⟨by decide, by decide⟩,
   (C29_revenue_partition sampleStore
      { id := 100, user_id := 7, status := "confirmed", total_price := 13000,
        customer_details := sampleForm, created_at := 5 }
      (by decide) (by decide) (by decide)).1,
   by decide⟩

/-- The navigation of an administrator has the items `/reports` and `/maintenance`, and
`AppRoutes` declares no route for either: following them reaches no `ProtectedRoute` and
renders nothing.  C30 asks for every item to have a route that allows the role. -/
theorem C30_admin_items_without_route :
    adminA.role = "admin" ∧
    (getNavigationItems adminA).map (fun item => item.path) =
      ["/admin", "/orders", "/membership", "/reports", "/maintenance"] ∧
    routeFor "/reports" = Option.none ∧ routeFor "/maintenance" = Option.none ∧
    followGuarded { user := some adminA, loading := false } "/reports" = Option.none ∧
    followGuarded { user := some adminA, loading := false } "/maintenance" = Option.none ∧
    (getNavigationItems adminA).map
      (fun item => followGuarded { user := some adminA, loading := false } item.path) =
      [some Rendered.children, some Rendered.children, some Rendered.children,
       Option.none, Option.none] := by
  decide

/-- For a vendor and for a buyer every item of the navigation, the dashboard among them,
has a route of `AppRoutes` whose `allowedRoles` contain the role, so following it
renders the page; for an administrator this holds for every item other than `/reports`
and `/maintenance`. -/
theorem navigation_items_allowed (u : Identity) :
    ((u.role = "vendor" ∨ u.role = "user") →
      ∀ item ∈ getNavigationItems u,
        followGuarded { user := some u, loading := false } item.path =
          some Rendered.children) ∧
    (u.role = "admin" →
      ∀ item ∈ getNavigationItems u, item.path ≠ "/reports" → item.path ≠ "/maintenance" →
        followGuarded { user := some u, loading := false } item.path =
          some Rendered.children) ∧
    (u.role ∈ appRoles →
      dashboardPath u ∈ (getNavigationItems u).map (fun item => item.path) ∧
      followGuarded { user := some u, loading := false } (dashboardPath u) =
        some Rendered.children) := by
  have hroute : ∀ (path : String) (roles : List String) (page : String),
      routeFor path = some (RouteElement.guarded roles page) → u.role ∈ roles →
      followGuarded { user := some u, loading := false } path = some Rendered.children := by
    intro path roles page hr hin
    simp [followGuarded, hr, ProtectedRoute, hin]
  have hadmin : routeFor "/admin" = some (RouteElement.guarded ["admin"] "AdminDashboard") := by
    decide
  have hvendor : routeFor "/vendor" =
      some (RouteElement.guarded ["vendor"] "VendorDashboard") := by decide
  have huser : routeFor "/user" = some (RouteElement.guarded ["user"] "UserDashboard") := by
    decide
  have hproducts : routeFor "/products" =
      some (RouteElement.guarded ["user", "vendor"] "ProductCatalog") := by decide
  have horders : routeFor "/orders" =
      some (RouteElement.guarded ["user", "vendor", "admin"] "OrderHistory") := by decide
  have hmember : routeFor "/membership" =
      some (RouteElement.guarded ["user", "admin"] "MembershipManagement") := by decide
  refine ⟨?_, ?_, ?_⟩
  · rintro (hr | hr) item hitem
    · have h1 : ("/" ++ u.role : String) = "/vendor" := by rw [hr]; decide
      simp only [getNavigationItems, hr, if_true, h1] at hitem
      simp only [show ¬ ("vendor" : String) = "admin" by decide, if_false, List.cons_append,
        List.nil_append, List.mem_cons, List.mem_singleton, List.not_mem_nil, or_false]
        at hitem
      rcases hitem with rfl | rfl | rfl
      · exact hroute _ _ _ hvendor (by rw [hr]; decide)
      · exact hroute _ _ _ hproducts (by rw [hr]; decide)
      · exact hroute _ _ _ horders (by rw [hr]; decide)
    · have h1 : ("/" ++ u.role : String) = "/user" := by rw [hr]; decide
      simp only [getNavigationItems, hr, if_true, h1] at hitem
      simp only [show ¬ ("user" : String) = "admin" by decide,
        show ¬ ("user" : String) = "vendor" by decide, if_false, List.cons_append,
        List.nil_append, List.mem_cons, List.mem_singleton, List.not_mem_nil, or_false]
        at hitem
      rcases hitem with rfl | rfl | rfl | rfl
      · exact hroute _ _ _ huser (by rw [hr]; decide)
      · exact hroute _ _ _ hproducts (by rw [hr]; decide)
      · exact hroute _ _ _ horders (by rw [hr]; decide)
      · exact hroute _ _ _ hmember (by rw [hr]; decide)
  · intro hr item hitem hne1 hne2
    have h1 : ("/" ++ u.role : String) = "/admin" := by rw [hr]; decide
    simp only [getNavigationItems, hr, if_true, h1, List.cons_append,
      List.nil_append, List.mem_cons, List.mem_singleton, List.not_mem_nil, or_false]
      at hitem
    rcases hitem with rfl | rfl | rfl | rfl | rfl
    · exact hroute _ _ _ hadmin (by rw [hr]; decide)
    · exact hroute _ _ _ horders (by rw [hr]; decide)
    · exact hroute _ _ _ hmember (by rw [hr]; decide)
    · exact absurd rfl hne1
    · exact absurd rfl hne2
  · intro hr
    simp only [appRoles, List.mem_cons, List.mem_singleton, List.not_mem_nil, or_false] at hr
    rcases hr with hr | hr | hr
    · have h1 : dashboardPath u = "/admin" := by unfold dashboardPath; rw [hr]; decide
      refine ⟨?_, ?_⟩
      · simp [getNavigationItems, hr, h1]
      · rw [h1]; exact hroute _ _ _ hadmin (by rw [hr]; decide)
    · have h1 : dashboardPath u = "/vendor" := by unfold dashboardPath; rw [hr]; decide
      refine ⟨?_, ?_⟩
      · simp [getNavigationItems, hr, h1]
      · rw [h1]; exact hroute _ _ _ hvendor (by rw [hr]; decide)
    · have h1 : dashboardPath u = "/user" := by unfold dashboardPath; rw [hr]; decide
      refine ⟨?_, ?_⟩
      · simp [getNavigationItems, hr, h1]
      · rw [h1]; exact hroute _ _ _ huser (by rw [hr]; decide)

end EMS
